import Mathlib

/-!
# Cosmic Velocity: the simulation core of `main.go`

A shallow embedding of `Game.Update`, `Game.calcGravity`, `Game.newRocket` and
`Game.initialize`.

Modelling conventions.

* `float64` values live in an arbitrary linearly ordered field `K` (exact
  arithmetic, no rounding, no infinities or NaN); `math.Pow(e, 2)` is `e ^ 2`
  and `math.Abs` is `|·|`.  Division by zero, which `calcGravity` meets only
  for a body at the very centre of the attractor, yields `0` in `K` and an
  infinity or NaN in `float64`; no statement below evaluates it.
* The functions of Go's `math` package that are not field operations
  (`math.Pi`, `math.Sqrt`, `math.Atan2`, `math.Cos`, `math.Sin`) are not part
  of the repository and are taken as a parameter `MathLib K`.
* `math/rand` is an oracle: three streams holding the successive results of
  `rand.Int()`, `rand.Float64()` and `rand.NormFloat64()`.
* `uint64` counters wrap modulo `2 ^ 64`.  Go's `int` and `uint` have a
  platform dependent width and are kept unbounded (`Int`, `Nat`).
* Telemetry and audio calls are recorded, in order, in a list of `Event`s.
* The rejection loop of the spawn step has no bound in the source; the model
  gives it `fuel` iterations and returns `none` when they are used up.
-/

namespace CosmicVelocity

/-! ## Constants (`main.go` lines 29-38, 165) -/

def screenWidth : Int := 640
def screenHeight : Int := 480
def screenCenterX : Int := screenWidth / 2
def screenCenterY : Int := screenHeight / 2
def earthX : Int := screenCenterX
def earthY : Int := screenCenterY
def earthM : Int := 100
def earthR : Int := 20
def orbitLength : Nat := 300

/-! ## External collaborators -/

/-- The part of Go's `math` package used by the simulation. -/
structure MathLib (K : Type) where
  Pi : K
  Sqrt : K → K
  Atan2 : K → K → K
  Cos : K → K
  Sin : K → K

/-- The random source: successive results of the three `math/rand` calls. -/
structure Rand (K : Type) where
  ints : Nat → Nat
  floats : Nat → K
  norms : Nat → K

/-- Result of `rand.Int()` and the advanced source. -/
def Rand.Int {K : Type} (r : Rand K) : Nat × Rand K :=
  (r.ints 0, { r with ints := fun n => r.ints (n + 1) })

/-- Result of `rand.Float64()` and the advanced source. -/
def Rand.Float64 {K : Type} (r : Rand K) : K × Rand K :=
  (r.floats 0, { r with floats := fun n => r.floats (n + 1) })

/-- Result of `rand.NormFloat64()` and the advanced source. -/
def Rand.NormFloat64 {K : Type} (r : Rand K) : K × Rand K :=
  (r.norms 0, { r with norms := fun n => r.norms (n + 1) })

/-- What `touchContext` reports after its per-tick `Update()`. -/
structure TouchContext where
  IsJustTouched : Bool
  IsJustReleased : Bool

/-- Calls into the telemetry and audio sinks. -/
inductive Event where
  | logStartGame
  | logPlaying (ticks : Nat) (score : Int)
  | logGameOver (ticks : Nat) (score : Int)
  | logInit
  | playGameStart
  | playRocketSet
  | playHit
  | playGameOver
  | bgmRewind
  | bgmPlay
  | bgmPause
  deriving DecidableEq, Repr

/-- Recogniser of the "game_over" telemetry event. -/
def Event.isGameOver : Event → Bool
  | Event.logGameOver _ _ => true
  | _ => false

/-! ## Data model (`main.go` lines 101-106, 157-163, 231-236, 257-286) -/

structure rocket (K : Type) where
  x : K
  y : K
  vx : K
  vy : K
  m : K
  r : K

structure meteoroid (K : Type) where
  x : K
  y : K
  vx : K
  vy : K
  r : K
  ticks : Nat
  orbit : Fin orbitLength → K × K

structure effect (K : Type) where
  x : K
  y : K
  ticks : Nat
  angles : List K
  plus : Int

structure star (K : Type) where
  x : K
  y : K
  r : K

inductive gameMode where
  | gameModeTitle
  | gameModePlaying
  | gameModeGameOver
  deriving DecidableEq, Repr

open gameMode

structure Game (K : Type) where
  mode : gameMode
  hold : Bool
  ticksFromModeStart : Nat
  rocket : rocket K
  meteoroids : List (meteoroid K)
  effects : List (effect K)
  stars : List (star K)
  score : Int

/-- The state threaded through one call of `Update`: the game, the random
source and the events emitted so far. -/
structure World (K : Type) where
  g : Game K
  rnd : Rand K
  log : List Event

variable {K : Type} [LinearOrderedField K]

/-! ## `calcGravity` and `newRocket` -/

/-- `Game.calcGravity` (lines 288-295). -/
def calcGravity (M : MathLib K) (x y : K) : K × K :=
  let d2 := ((earthX : K) - x) ^ 2 + ((earthY : K) - y) ^ 2
  let a := (earthM : K) / d2
  let theta := M.Atan2 ((earthY : K) - y) ((earthX : K) - x)
  (a * M.Cos theta, a * M.Sin theta)

/-- `Game.newRocket` (lines 645-657). -/
def newRocket (M : MathLib K) : rocket K :=
  let r : Int := earthR + 30
  let v := M.Sqrt ((earthM : K) / (r : K))
  { x := (earthX : K)
    y := ((earthY - earthR - 30 : Int) : K)
    vx := v
    vy := 0
    m := 1
    r := 10 }

/-! ## The phases of a Playing tick -/

/-- Effect ticks (lines 337-346). -/
def tickEffects (es : List (effect K)) : List (effect K) :=
  es.filterMap fun e =>
    let e1 := { e with ticks := e.ticks + 1 }
    if e1.ticks < 60 then some e1 else none

/-- Spawn position computed from the random index `p` (lines 350-366). -/
def spawnPosition (p : Int) : K × K :=
  let w : Int := screenWidth + 50 * 2
  let h : Int := screenHeight + 50 * 2
  if p < w then
    ((p : K), -50)
  else if p < w + h then
    (((screenWidth + 50 : Int) : K), ((p - w : Int) : K))
  else if p < w + h + w then
    (((p - w - h : Int) : K), ((screenHeight + 50 : Int) : K))
  else
    (-50, ((p - w - h - w : Int) : K))

/-- The heading offset `math.Pi*rand.Float64() - math.Pi/2` of a sample. -/
def headingOffset (M : MathLib K) (u : K) : K :=
  M.Pi * u - M.Pi / 2

/-- The test of the rejection loop, `math.Abs(dt) > math.Pi/8`. -/
def offsetAccepted (M : MathLib K) (dt : K) : Prop :=
  |dt| > M.Pi / 8

instance (M : MathLib K) (dt : K) : Decidable (offsetAccepted M dt) := by
  unfold offsetAccepted
  infer_instance

/-- The rejection loop (lines 368-373), run for at most `fuel` samples. -/
def sampleOffset (M : MathLib K) : Nat → Rand K → Option (K × Rand K)
  | 0, _ => none
  | fuel + 1, rnd =>
    let (u, rnd1) := rnd.Float64
    let dt := headingOffset M u
    if offsetAccepted M dt then some (dt, rnd1) else sampleOffset M fuel rnd1

/-- Meteoroid enter (lines 348-383); `ticks` is `ticksFromModeStart` after the
increment of this tick. -/
def spawnStep (M : MathLib K) (fuel : Nat) (ticks : Nat) (rnd : Rand K)
    (ms : List (meteoroid K)) : Option (List (meteoroid K) × Rand K) :=
  if ticks % 60 = 0 then
    let w : Int := screenWidth + 50 * 2
    let h : Int := screenHeight + 50 * 2
    let l : Int := w * 2 + h * 2
    let (n, rnd1) := rnd.Int
    let p : Int := (n : Int) % l
    let pos : K × K := spawnPosition p
    let theta := M.Atan2 ((earthY : K) - pos.2) ((earthX : K) - pos.1)
    match sampleOffset M fuel rnd1 with
    | none => none
    | some (dt, rnd2) =>
      let theta1 := theta + dt
      let v : K := 1 / 2
      some (ms ++ [{ x := pos.1, y := pos.2, vx := v * M.Cos theta1, vy := v * M.Sin theta1,
                     r := 10, ticks := 0, orbit := fun _ => (0, 0) }], rnd2)
  else
    some (ms, rnd)

/-- Rocket move (lines 385-387). -/
def moveRocket (r : rocket K) : rocket K :=
  { r with x := r.x + r.vx, y := r.y + r.vy }

/-- Rocket jet boost (lines 389-395). -/
def boostRocket (M : MathLib K) (hold : Bool) (r : rocket K) : rocket K :=
  if hold then
    let dv : K := 1 / 100
    let theta := M.Atan2 r.vy r.vx
    { r with vx := r.vx + dv * M.Cos theta, vy := r.vy + dv * M.Sin theta }
  else r

/-- Gravity on the rocket (lines 397-400). -/
def gravityRocket (M : MathLib K) (r : rocket K) : rocket K :=
  let dv := calcGravity M r.x r.y
  { r with vx := r.vx + dv.1, vy := r.vy + dv.2 }

/-- The bounds test of line 401. -/
def rocketOut (r : rocket K) : Prop :=
  r.x < -50 ∨ r.x > ((screenWidth + 50 : Int) : K) ∨ r.y < -50 ∨ r.y > ((screenHeight + 50 : Int) : K)

instance (r : rocket K) : Decidable (rocketOut r) := by
  unfold rocketOut
  infer_instance

/-- Gravity on one meteoroid (body of the loop at lines 406-411). -/
def gravityMeteoroid (M : MathLib K) (m : meteoroid K) : meteoroid K :=
  let dv := calcGravity M m.x m.y
  { m with vx := m.vx + dv.1, vy := m.vy + dv.2 }

/-- Movement of one meteoroid (lines 417-420). -/
def moveMeteoroid (m : meteoroid K) : meteoroid K :=
  let t := (m.ticks + 1) % 2 ^ 64
  { m with
    ticks := t
    orbit := Function.update m.orbit ⟨t % orbitLength, Nat.mod_lt _ (by decide)⟩ (m.x, m.y)
    x := m.x + m.vx
    y := m.y + m.vy }

/-- The bounds test of line 422. -/
def meteoroidIn (m : meteoroid K) : Prop :=
  m.x > -50 ∧ m.x < ((screenWidth + 50 : Int) : K) ∧ m.y > -50 ∧ m.y < ((screenHeight + 50 : Int) : K)

instance (m : meteoroid K) : Decidable (meteoroidIn m) := by
  unfold meteoroidIn
  infer_instance

/-- Meteoroids move (lines 413-426). -/
def moveMeteoroids (ms : List (meteoroid K)) : List (meteoroid K) :=
  ms.filterMap fun m =>
    let m1 := moveMeteoroid m
    if meteoroidIn m1 then some m1 else none

/-- The rocket-meteoroid test of line 433. -/
def hitsRocket (m : meteoroid K) (r : rocket K) : Prop :=
  (m.x - r.x) ^ 2 + (m.y - r.y) ^ 2 < (m.r + r.r) ^ 2

instance (m : meteoroid K) (r : rocket K) : Decidable (hitsRocket m r) := by
  unfold hitsRocket
  infer_instance

/-- The meteoroid-attractor test of line 467. -/
def hitsEarth (m : meteoroid K) : Prop :=
  ((earthX : K) - m.x) ^ 2 + ((earthY : K) - m.y) ^ 2 < ((earthR : K) + m.r) ^ 2

instance (m : meteoroid K) : Decidable (hitsEarth m) := by
  unfold hitsEarth
  infer_instance

/-- The rocket-attractor test of line 487. -/
def rocketHitsEarth (r : rocket K) : Prop :=
  ((earthX : K) - r.x) ^ 2 + ((earthY : K) - r.y) ^ 2 < ((earthR : K) + r.r) ^ 2

instance (r : rocket K) : Decidable (rocketHitsEarth r) := by
  unfold rocketHitsEarth
  infer_instance

/-- Distance of a meteoroid to the attractor as computed at line 436. -/
def earthDistance (M : MathLib K) (m : meteoroid K) : K :=
  M.Sqrt ((m.x - (earthX : K)) ^ 2 + (m.y - (earthY : K)) ^ 2)

/-- The score increment of lines 437-444. -/
def scorePlus (d : K) : Int :=
  if d < 100 then 1 else if d < 150 then 2 else 3

/-- The six particle angles of an effect (lines 451-458). -/
def effectAngles (M : MathLib K) (rnd : Rand K) : List K × Rand K :=
  let (u1, r1) := rnd.Float64
  let (u2, r2) := r1.Float64
  let (u3, r3) := r2.Float64
  let (u4, r4) := r3.Float64
  let (u5, r5) := r4.Float64
  let (u6, r6) := r5.Float64
  ([M.Pi * 2 * u1, M.Pi * 2 * u2, M.Pi * 2 * u3, M.Pi * 2 * u4, M.Pi * 2 * u5, M.Pi * 2 * u6], r6)

/-- The effect created for a struck meteoroid (lines 448-460). -/
def hitEffect (M : MathLib K) (m : meteoroid K) (angles : List K) : effect K :=
  { x := m.x, y := m.y, ticks := 0, angles := angles, plus := scorePlus (earthDistance M m) }

/-- The rocket-meteoroid branch of the collision loop body (lines 433-465):
the world and `newMeteoroids` after it. -/
def rocketRule (M : MathLib K) (m : meteoroid K) (w : World K) (kept : List (meteoroid K)) :
    World K × List (meteoroid K) :=
  if hitsRocket m w.g.rocket then
    let plus := scorePlus (earthDistance M m)
    let a := effectAngles M w.rnd
    ({ g := { w.g with
              rocket := newRocket M
              score := w.g.score + plus
              effects := w.g.effects ++ [hitEffect M m a.1] }
       rnd := a.2
       log := w.log ++ [Event.playHit] }, kept)
  else
    (w, kept ++ [m])

/-- The meteoroid-attractor branch of the loop body (lines 467-480), taken when
`hitsEarth m`. -/
def earthRule (m : meteoroid K) (w : World K) : World K × List (meteoroid K) :=
  ({ w with
     g := { w.g with mode := gameModeGameOver }
     log := w.log ++ [Event.playGameOver, Event.logGameOver w.g.ticksFromModeStart w.g.score] },
   [m])

/-- Meteoroids collision (the loop of lines 430-483) over the meteoroids still to
be visited; `kept` is `newMeteoroids`. -/
def collisionLoop (M : MathLib K) :
    List (meteoroid K) → World K → List (meteoroid K) → World K × List (meteoroid K)
  | [], w, kept => (w, kept)
  | m :: rest, w, kept =>
    let s := rocketRule M m w kept
    if hitsEarth m then earthRule m s.1 else collisionLoop M rest s.1 s.2

/-- Rocket and earth collision (lines 486-500). -/
def rocketEarthRule (w : World K) : World K :=
  if rocketHitsEarth w.g.rocket then
    { w with
      g := { w.g with meteoroids := [], mode := gameModeGameOver }
      log := w.log ++ [Event.playGameOver, Event.logGameOver w.g.ticksFromModeStart w.g.score] }
  else w

/-! ## `Game.initialize` and `Game.Update` -/

/-- The star loop of `initialize` (lines 671-678), `n` iterations. -/
def makeStars : Nat → Rand K → List (star K) → List (star K) × Rand K
  | 0, rnd, acc => (acc, rnd)
  | n + 1, rnd, acc =>
    let (u1, r1) := rnd.Float64
    let (u2, r2) := r1.Float64
    let (z, r3) := r2.NormFloat64
    makeStars n r3 (acc ++ [{ x := (screenWidth : K) * u1, y := (screenHeight : K) * u2,
                               r := 1 / 2 + z }])

/-- `Game.initialize` (lines 659-682). -/
def initGame (M : MathLib K) (w : World K) : World K :=
  let s := makeStars 100 w.rnd []
  { g := { mode := gameModeTitle
           hold := false
           ticksFromModeStart := 0
           rocket := newRocket M
           meteoroids := []
           effects := []
           stars := s.1
           score := 0 }
    rnd := s.2
    log := w.log ++ [Event.logInit] }

/-- The state of a Playing tick right before the collision loop (lines 320-426):
after the effect ticks, the spawn step, the rocket's move, boost, gravity and
bounds check, and the meteoroids' gravity, move and eviction. -/
def beforeCollision (M : MathLib K) (fuel : Nat) (t : TouchContext) (w : World K) :
    Option (World K) :=
  let g := w.g
  let log1 := if g.ticksFromModeStart % 600 = 0 then
      w.log ++ [Event.logPlaying g.ticksFromModeStart g.score] else w.log
  let hold1 := if t.IsJustTouched then true else g.hold
  let hold2 := if t.IsJustReleased then false else hold1
  let effects1 := tickEffects g.effects
  match spawnStep M fuel g.ticksFromModeStart w.rnd g.meteoroids with
  | none => none
  | some (ms1, rnd1) =>
    let r1 := gravityRocket M (boostRocket M hold2 (moveRocket g.rocket))
    let out := rocketOut r1
    let r2 := if out then newRocket M else r1
    let log2 := if out then log1 ++ [Event.playRocketSet] else log1
    let ms2 := ms1.map (gravityMeteoroid M)
    let ms3 := moveMeteoroids ms2
    some { g := { g with hold := hold2, effects := effects1, rocket := r2, meteoroids := ms3 }
           rnd := rnd1
           log := log2 }

/-- The end of a Playing tick (lines 484-500): `newMeteoroids` of the collision
loop becomes the collection, then the rocket-attractor rule runs. -/
def finishTick (s : World K × List (meteoroid K)) : World K :=
  rocketEarthRule { s.1 with g := { s.1.g with meteoroids := s.2 } }

/-- The Playing case of `Update` (lines 319-500). -/
def updatePlaying (M : MathLib K) (fuel : Nat) (t : TouchContext) (w : World K) :
    Option (World K) :=
  match beforeCollision M fuel t w with
  | none => none
  | some w1 => some (finishTick (collisionLoop M w1.g.meteoroids w1 []))

/-- The increment `g.ticksFromModeStart++` of line 300 (a `uint64`). -/
def enterTick (w : World K) : World K :=
  { w with g := { w.g with ticksFromModeStart := (w.g.ticksFromModeStart + 1) % 2 ^ 64 } }

/-- `Game.Update` (lines 297-509) on the world; `none` when the spawn loop does
not end within `fuel` samples. -/
def updateWorld (M : MathLib K) (fuel : Nat) (t : TouchContext) (w : World K) :
    Option (World K) :=
  let w0 : World K := enterTick w
  match w0.g.mode with
  | gameModeTitle =>
    if t.IsJustTouched then
      some { w0 with
             g := { w0.g with mode := gameModePlaying, ticksFromModeStart := 0 }
             log := w0.log ++ [Event.logStartGame, Event.playGameStart, Event.bgmRewind,
                               Event.bgmPlay] }
    else some w0
  | gameModePlaying => updatePlaying M fuel t w0
  | gameModeGameOver =>
    if t.IsJustTouched then
      let w1 := initGame M w0
      some { w1 with log := w1.log ++ [Event.bgmPause] }
    else some w0

/-- One call of `Update` from game `g` with random source `rnd`: the game and
random source after the call and the events emitted during it. -/
def Update (M : MathLib K) (fuel : Nat) (t : TouchContext) (rnd : Rand K) (g : Game K) :
    Option (World K) :=
  updateWorld M fuel t { g := g, rnd := rnd, log := [] }

/-- The state in which the collision loop starts when `Update` is called in
Playing mode from game `g` with random source `rnd`. -/
def collisionInput (M : MathLib K) (fuel : Nat) (t : TouchContext) (rnd : Rand K) (g : Game K) :
    Option (World K) :=
  beforeCollision M fuel t (enterTick { g := g, rnd := rnd, log := [] })

/-! ## Properties named by the specification -/

/-- The perimeter of the rectangle expanded 50 units beyond each screen edge,
the boundary of `[-50, 690] × [-50, 530]`. -/
def onExpandedPerimeter (q : K × K) : Prop :=
  ((q.2 = -50 ∨ q.2 = 530) ∧ -50 ≤ q.1 ∧ q.1 ≤ 690) ∨
    ((q.1 = -50 ∨ q.1 = 690) ∧ -50 ≤ q.2 ∧ q.2 ≤ 530)

instance (q : K × K) : Decidable (onExpandedPerimeter q) := by
  unfold onExpandedPerimeter
  infer_instance

/-- Number of "game_over" telemetry events in a log. -/
def gameOverCount (log : List Event) : Nat :=
  log.countP Event.isGameOver

/-- The laws of the real square root, assumed of `math.Sqrt` where a claim
speaks of exact distances or speeds. -/
def SqrtExact (M : MathLib K) : Prop :=
  ∀ a : K, 0 ≤ a → 0 ≤ M.Sqrt a ∧ M.Sqrt a ^ 2 = a

/-- The Pythagorean identity, assumed of `math.Cos` and `math.Sin` where a claim
speaks of an exact speed. -/
def TrigExact (M : MathLib K) : Prop :=
  ∀ t : K, M.Cos t ^ 2 + M.Sin t ^ 2 = 1

/-- Values of the real cosine and sine of `math.Atan2` on the directions
east and south, the two directions along which the worked examples place
their bodies relative to the attractor. -/
structure AxisExact (M : MathLib K) : Prop where
  cos_east : ∀ x : K, 0 < x → M.Cos (M.Atan2 0 x) = 1
  sin_east : ∀ x : K, 0 < x → M.Sin (M.Atan2 0 x) = 0
  cos_south : ∀ y : K, 0 < y → M.Cos (M.Atan2 y 0) = 0
  sin_south : ∀ y : K, 0 < y → M.Sin (M.Atan2 y 0) = 1

/-- The real square root of a square, assumed of `math.Sqrt` where a worked
example evaluates a distance along an axis. -/
def SqrtOnSquares (M : MathLib K) : Prop :=
  ∀ q : K, 0 ≤ q → M.Sqrt (q ^ 2) = q

/-! ## A rational instance of the math package

Low precision rational versions of the five `math` members, used to run the
model on concrete inputs.  They agree with the real functions on the axis
directions (`AxisExact`), which is all the worked examples rely on. -/

/-- Bhaskara's approximation of the sine on `[0, pi]`. -/
def sinBhaskara (pi x : ℚ) : ℚ :=
  16 * x * (pi - x) / (5 * pi ^ 2 - 4 * x * (pi - x))

/-- Sine: reduction of the argument to `[-pi, pi)`, then `sinBhaskara`. -/
def sinQ (pi t : ℚ) : ℚ :=
  let r := t - 2 * pi * ((⌊(t + pi) / (2 * pi)⌋ : Int) : ℚ)
  if 0 ≤ r then sinBhaskara pi r else -sinBhaskara pi (-r)

/-- Arctangent on `[-1, 1]`. -/
def atanQ (pi z : ℚ) : ℚ :=
  z * (pi / 4 + 273 / 1000 * (1 - |z|))

/-- Two-argument arctangent. -/
def atan2Q (pi y x : ℚ) : ℚ :=
  if x = 0 then (if 0 < y then pi / 2 else if y < 0 then -(pi / 2) else 0)
  else
    let a := if |y| ≤ |x| then atanQ pi (y / x)
      else (if 0 < y / x then pi / 2 else -(pi / 2)) - atanQ pi (x / y)
    if 0 < x then a else if 0 ≤ y then a + pi else a - pi

/-- Square root: exact on squares of rationals, else rounded down to a multiple
of `2 ^ (-52)`. -/
def sqrtQ (a : ℚ) : ℚ :=
  if a ≤ 0 then 0 else
    let n := Nat.sqrt a.num.natAbs
    let d := Nat.sqrt a.den
    if n * n = a.num.natAbs ∧ d * d = a.den then (n : ℚ) / (d : ℚ)
    else (Nat.sqrt (⌊a * 2 ^ 104⌋).natAbs : ℚ) / 2 ^ 52

/-- The value of the `float64` constant `math.Pi`. -/
def piQ : ℚ := 884279719003555 / 281474976710656

/-- The rational instance of the math package. -/
def mathQ : MathLib ℚ where
  Pi := piQ
  Sqrt := sqrtQ
  Atan2 := atan2Q piQ
  Cos := fun t => sinQ piQ (t + piQ / 2)
  Sin := sinQ piQ

/-! ## Worked inputs

States and inputs on which the model is run below.  Every body stands west of
the attractor on the horizontal line through it, or straight above it, so that
the direction of gravity is east or south. -/

/-- No touch event in this tick. -/
def noTouch : TouchContext := ⟨false, false⟩

/-- The random source whose every draw is `0`. -/
def zeroRand (K : Type) [LinearOrderedField K] : Rand K :=
  ⟨fun _ => 0, fun _ => 0, fun _ => 0⟩

/-- A rocket of radius 10 with the given position and velocity. -/
def rocketAt (x y vx vy : K) : rocket K :=
  { x := x, y := y, vx := vx, vy := vy, m := 1, r := 10 }

/-- A meteoroid of radius 10 and age 0 with the given position and velocity. -/
def meteoroidAt (x y vx vy : K) : meteoroid K :=
  { x := x, y := y, vx := vx, vy := vy, r := 10, ticks := 0, orbit := fun _ => (0, 0) }

/-- A Playing state at tick 0 with score 0, no effects and thrust off. -/
def playingGame (r : rocket K) (ms : List (meteoroid K)) : Game K :=
  { mode := gameModePlaying, hold := false, ticksFromModeStart := 0, rocket := r,
    meteoroids := ms, effects := [], stars := [], score := 0 }

/-- A resting rocket at (100, 240) with one meteoroid next to it and one next to
the launch position (320, 190). -/
def twoHitGame (K : Type) [LinearOrderedField K] : Game K :=
  playingGame (rocketAt 100 240 0 0) [meteoroidAt 110 240 0 0, meteoroidAt 320 185 0 0]

/-- A resting rocket at (100, 240) with one meteoroid next to it. -/
def oneHitGame (K : Type) [LinearOrderedField K] : Game K :=
  playingGame (rocketAt 100 240 0 0) [meteoroidAt 110 240 0 0]

/-- A rocket at (100, 240) flying east at speed 2, no meteoroids. -/
def coastingGame (K : Type) [LinearOrderedField K] : Game K :=
  playingGame (rocketAt 100 240 2 0) []

/-- A rocket resting 20 units west of the attractor and a meteoroid resting 26
units above the attractor. -/
def bothGame (K : Type) [LinearOrderedField K] : Game K :=
  playingGame (rocketAt 300 240 0 0) [meteoroidAt 320 214 0 0]

/-- A rocket resting 20 units west of the attractor, no meteoroids. -/
def crashGame (K : Type) [LinearOrderedField K] : Game K :=
  playingGame (rocketAt 300 240 0 0) []

/-- A resting rocket at (100, 240), a meteoroid 28 units west of the attractor
and, behind it in the collection, a meteoroid next to the rocket. -/
def impactGame (K : Type) [LinearOrderedField K] : Game K :=
  playingGame (rocketAt 100 240 0 0) [meteoroidAt 292 240 0 0, meteoroidAt 110 240 0 0]

/-- A rocket at (100, 240) flying east at speed 2 and a meteoroid resting at
(200, 240). -/
def driftGame (K : Type) [LinearOrderedField K] : Game K :=
  playingGame (rocketAt 100 240 2 0) [meteoroidAt 200 240 0 0]

/-- A Playing state at tick 59, so that the next tick is a spawn tick. -/
def spawnGame (K : Type) [LinearOrderedField K] : Game K :=
  { mode := gameModePlaying, hold := false, ticksFromModeStart := 59,
    rocket := rocketAt 100 240 0 0, meteoroids := [meteoroidAt 200 240 0 0], effects := [],
    stars := [], score := 0 }

/-! # Theorems -/

/-! ## Constants and the math instances -/

@[simp]
theorem earthX_cast : ((earthX : Int) : K) = 320 := by
  norm_num [earthX, screenCenterX, screenWidth]

@[simp]
theorem earthY_cast : ((earthY : Int) : K) = 240 := by
  norm_num [earthY, screenCenterY, screenHeight]

@[simp]
theorem earthM_cast : ((earthM : Int) : K) = 100 := by
  norm_num [earthM]

@[simp]
theorem earthR_cast : ((earthR : Int) : K) = 20 := by
  norm_num [earthR]

/-- The rational instance is exact on the axis directions. -/
theorem mathQ_axisExact : AxisExact mathQ := by
  constructor
  · intro x hx
    have h : mathQ.Atan2 0 x = 0 := by simp [mathQ, atan2Q, atanQ, hx, hx.ne']
    rw [h]; norm_num [mathQ, sinQ, sinBhaskara, piQ]
  · intro x hx
    have h : mathQ.Atan2 0 x = 0 := by simp [mathQ, atan2Q, atanQ, hx, hx.ne']
    rw [h]; norm_num [mathQ, sinQ, sinBhaskara, piQ]
  · intro y hy
    have h : mathQ.Atan2 y 0 = piQ / 2 := by simp [mathQ, atan2Q, atanQ, hy, hy.ne']
    rw [h]; norm_num [mathQ, sinQ, sinBhaskara, piQ]
  · intro y hy
    have h : mathQ.Atan2 y 0 = piQ / 2 := by simp [mathQ, atan2Q, atanQ, hy, hy.ne']
    rw [h]; norm_num [mathQ, sinQ, sinBhaskara, piQ]

/-- The real functions are exact on the axis directions: every statement proved
below for an `AxisExact` math package holds for the real-number reading of
`math.Atan2`, `math.Cos` and `math.Sin`. -/
theorem real_axisExact :
    AxisExact (⟨Real.pi, Real.sqrt, fun y x => Complex.arg ⟨x, y⟩, Real.cos, Real.sin⟩ :
      MathLib ℝ) := by
  have hE : ∀ x : ℝ, 0 < x → Complex.arg ⟨x, 0⟩ = 0 := by
    intro x hx
    have : (⟨x, 0⟩ : ℂ) = ((x : ℝ) : ℂ) := by apply Complex.ext <;> simp
    rw [this, Complex.arg_ofReal_of_nonneg hx.le]
  have hS : ∀ y : ℝ, 0 < y → Complex.arg ⟨0, y⟩ = Real.pi / 2 := by
    intro y hy
    have : (⟨0, y⟩ : ℂ) = ((y : ℝ) : ℂ) * Complex.I := by apply Complex.ext <;> simp
    rw [this, Complex.arg_real_mul _ hy, Complex.arg_I]
  constructor
  · intro x hx; simp [hE x hx]
  · intro x hx; simp [hE x hx]
  · intro y hy; simp [hS y hy]
  · intro y hy; simp [hS y hy]

/-- Gravity on a body west of the attractor on its horizontal line. -/
theorem calcGravity_east (M : MathLib K) (h : AxisExact M) (x : K) (hx : x < 320) :
    calcGravity M x 240 = (100 / (320 - x) ^ 2, 0) := by
  have hp : (0 : K) < 320 - x := by linarith
  simp [calcGravity, h.cos_east _ hp, h.sin_east _ hp]

/-- Gravity on a body straight above the attractor. -/
theorem calcGravity_south (M : MathLib K) (h : AxisExact M) (y : K) (hy : y < 240) :
    calcGravity M 320 y = (0, 100 / (240 - y) ^ 2) := by
  have hp : (0 : K) < 240 - y := by linarith
  simp [calcGravity, h.cos_south _ hp, h.sin_south _ hp]

theorem moveMeteoroids_nil : moveMeteoroids ([] : List (meteoroid K)) = [] := rfl

theorem moveMeteoroids_cons (m : meteoroid K) (ms : List (meteoroid K)) :
    moveMeteoroids (m :: ms)
      = if meteoroidIn (moveMeteoroid m) then moveMeteoroid m :: moveMeteoroids ms
        else moveMeteoroids ms := by
  unfold moveMeteoroids
  rw [List.filterMap_cons]
  split_ifs <;> simp_all

/-! ## C7: the spawn position -/

/-- What the spawn position is for every index of the perimeter length: each of
the four edges starts at coordinate 0 instead of -50. -/
theorem spawnPosition_edges (p : Int) (h0 : 0 ≤ p) (h1 : p < 2640) :
    ((spawnPosition p : K × K).2 = -50 ∧ 0 ≤ (spawnPosition p : K × K).1 ∧
        (spawnPosition p : K × K).1 ≤ 739) ∨
      ((spawnPosition p : K × K).1 = 690 ∧ 0 ≤ (spawnPosition p : K × K).2 ∧
        (spawnPosition p : K × K).2 ≤ 579) ∨
      ((spawnPosition p : K × K).2 = 530 ∧ 0 ≤ (spawnPosition p : K × K).1 ∧
        (spawnPosition p : K × K).1 ≤ 739) ∨
      ((spawnPosition p : K × K).1 = -50 ∧ 0 ≤ (spawnPosition p : K × K).2 ∧
        (spawnPosition p : K × K).2 ≤ 579) := by
  have w : screenWidth + 50 * 2 = 740 := by decide
  have h : screenHeight + 50 * 2 = 580 := by decide
  by_cases c1 : p < 740
  · have e : (spawnPosition p : K × K) = ((p : K), -50) := by
      simp only [spawnPosition, w, h, if_pos c1]
    rw [e]; left
    refine ⟨rfl, ?_, ?_⟩
    · show (0 : K) ≤ (p : K); exact_mod_cast h0
    · show (p : K) ≤ 739; exact_mod_cast (show p ≤ 739 by omega)
  by_cases c2 : p < 740 + 580
  · have e : (spawnPosition p : K × K) = (690, ((p - 740 : Int) : K)) := by
      simp only [spawnPosition, w, h, if_neg c1, if_pos c2]
      norm_num [screenWidth]
    rw [e]; right; left
    refine ⟨rfl, ?_, ?_⟩
    · show (0 : K) ≤ ((p - 740 : Int) : K); exact_mod_cast (show (0 : Int) ≤ p - 740 by omega)
    · show ((p - 740 : Int) : K) ≤ 579; exact_mod_cast (show p - 740 ≤ (579 : Int) by omega)
  by_cases c3 : p < 740 + 580 + 740
  · have e : (spawnPosition p : K × K) = (((p - 740 - 580 : Int) : K), 530) := by
      simp only [spawnPosition, w, h, if_neg c1, if_neg c2, if_pos c3]
      norm_num [screenHeight]
    rw [e]; right; right; left
    refine ⟨rfl, ?_, ?_⟩
    · show (0 : K) ≤ ((p - 740 - 580 : Int) : K)
      exact_mod_cast (show (0 : Int) ≤ p - 740 - 580 by omega)
    · show ((p - 740 - 580 : Int) : K) ≤ 739
      exact_mod_cast (show p - 740 - 580 ≤ (739 : Int) by omega)
  · have e : (spawnPosition p : K × K) = (-50, ((p - 740 - 580 - 740 : Int) : K)) := by
      simp only [spawnPosition, w, h, if_neg c1, if_neg c2, if_neg c3]
    rw [e]; right; right; right
    refine ⟨rfl, ?_, ?_⟩
    · show (0 : K) ≤ ((p - 740 - 580 - 740 : Int) : K)
      exact_mod_cast (show (0 : Int) ≤ p - 740 - 580 - 740 by omega)
    · show ((p - 740 - 580 - 740 : Int) : K) ≤ 579
      exact_mod_cast (show p - 740 - 580 - 740 ≤ (579 : Int) by omega)

/-- C7 (the code departs from the claim): the random index 700 lies in the range
of the first edge, and the spawn position computed from it is (700, -50), which
is not on the perimeter of the rectangle [-50, 690] x [-50, 530]. -/
theorem spawnPosition_off_perimeter :
    spawnPosition (K := ℚ) 700 = (700, -50) ∧
      ¬ onExpandedPerimeter (spawnPosition (K := ℚ) 700) := by
  decide

/-! ## C6: the heading offset -/

theorem headingOffset_zero (M : MathLib K) : headingOffset M 0 = -(M.Pi / 2) := by
  simp [headingOffset]

theorem offsetAccepted_zero (M : MathLib K) (hpi : 0 < M.Pi) :
    offsetAccepted M (headingOffset M 0) := by
  rw [headingOffset_zero]
  unfold offsetAccepted
  rw [abs_neg, abs_of_pos (by linarith)]
  show M.Pi / 8 < M.Pi / 2
  linarith

theorem sampleOffset_zero (M : MathLib K) (hpi : 0 < M.Pi) :
    (sampleOffset M 1 (zeroRand K)).map Prod.fst = some (-(M.Pi / 2)) := by
  have h := offsetAccepted_zero M hpi
  have e : (zeroRand K).floats 0 = 0 := rfl
  rw [headingOffset_zero] at h
  simp only [sampleOffset, Rand.Float64, e, headingOffset_zero, if_pos h]
  rfl

/-- C6 (as amended): when the samples lie in [0, 1) and the rejection loop
returns the offset `dt`, then `dt` is the offset `pi*u - pi/2` of one of the
samples, `|dt| > pi/8`, and `-pi/2 ≤ dt < pi/2`: the lower bound is not strict. -/
theorem headingOffset_accepted_bounds (M : MathLib K) (fuel : Nat) (rnd : Rand K) (dt : K)
    (hpi : 0 < M.Pi) (hu : ∀ i, 0 ≤ rnd.floats i ∧ rnd.floats i < 1)
    (h : (sampleOffset M fuel rnd).map Prod.fst = some dt) :
    (∃ i, i < fuel ∧ dt = headingOffset M (rnd.floats i)) ∧
      |dt| > M.Pi / 8 ∧ -(M.Pi / 2) ≤ dt ∧ dt < M.Pi / 2 := by
  induction fuel generalizing rnd with
  | zero => simp [sampleOffset] at h
  | succ n ih =>
    simp only [sampleOffset, Rand.Float64] at h
    split_ifs at h with hacc
    · simp at h
      subst h
      refine ⟨⟨0, Nat.succ_pos _, rfl⟩, hacc, ?_, ?_⟩
      · have := (hu 0).1
        unfold headingOffset
        nlinarith
      · have := (hu 0).2
        unfold headingOffset
        nlinarith
    · obtain ⟨⟨i, hi, he⟩, h2⟩ := ih { rnd with floats := fun n => rnd.floats (n + 1) }
        (fun i => hu (i + 1)) h
      exact ⟨⟨i + 1, Nat.succ_lt_succ hi, he⟩, h2⟩

/-- Witness of C6 (as amended): the all-zero random source, one sample. -/
theorem headingOffset_accepted_bounds_witness :
    (0 < mathQ.Pi) ∧ (∀ i, 0 ≤ (zeroRand ℚ).floats i ∧ (zeroRand ℚ).floats i < 1) ∧
      (sampleOffset mathQ 1 (zeroRand ℚ)).map Prod.fst = some (-(mathQ.Pi / 2)) ∧
      ((∃ i, i < 1 ∧ -(mathQ.Pi / 2) = headingOffset mathQ ((zeroRand ℚ).floats i)) ∧
        |(-(mathQ.Pi / 2))| > mathQ.Pi / 8 ∧ -(mathQ.Pi / 2) ≤ -(mathQ.Pi / 2) ∧
        -(mathQ.Pi / 2) < mathQ.Pi / 2) := by
  have h1 : 0 < mathQ.Pi := by norm_num [mathQ, piQ]
  have h2 : ∀ i, 0 ≤ (zeroRand ℚ).floats i ∧ (zeroRand ℚ).floats i < 1 := by
    intro i; norm_num [zeroRand]
  have h3 := sampleOffset_zero mathQ h1
  exact ⟨h1, h2, h3, headingOffset_accepted_bounds mathQ 1 (zeroRand ℚ) _ h1 h2 h3⟩

/-- Counterexample to C6 as stated: the sample `u = 0` lies in [0, 1), is
accepted by the rejection loop, and its offset is exactly `-pi/2`, so it is not
strictly above `-pi/2`. -/
theorem headingOffset_lower_bound_attained :
    (0 : ℚ) ≤ 0 ∧ (0 : ℚ) < 1 ∧ offsetAccepted mathQ (headingOffset mathQ 0) ∧
      (sampleOffset mathQ 1 (zeroRand ℚ)).map Prod.fst = some (headingOffset mathQ 0) ∧
      headingOffset mathQ 0 = -(mathQ.Pi / 2) ∧
      ¬ (-(mathQ.Pi / 2) < headingOffset mathQ 0) := by
  have h1 : 0 < mathQ.Pi := by norm_num [mathQ, piQ]
  have h0 := headingOffset_zero mathQ
  refine ⟨le_refl _, by norm_num, offsetAccepted_zero mathQ h1, ?_, h0, ?_⟩
  · rw [h0]; exact sampleOffset_zero mathQ h1
  · rw [h0]; exact lt_irrefl _

/-! ## C10: the launched rocket -/

/-- C10: for an exact square root, the rocket of `newRocket` stands at (320, 190),
straight above the attractor at distance `earthR + 30 = 50`; its velocity is
orthogonal to the direction to the attractor; its speed `vx` is non-negative
and its square is `earthM / (earthR + 30) = 2`. -/
theorem newRocket_launch (M : MathLib K) (hs : SqrtExact M) :
    (newRocket M).x = (earthX : K) ∧ (newRocket M).y = 190 ∧ (newRocket M).x = 320 ∧
      (newRocket M).y < (earthY : K) ∧
      ((newRocket M).x - (earthX : K)) ^ 2 + ((newRocket M).y - (earthY : K)) ^ 2
        = (((earthR + 30 : Int) : K)) ^ 2 ∧
      (((earthR + 30 : Int) : K)) = 50 ∧
      (newRocket M).vx * ((earthX : K) - (newRocket M).x)
        + (newRocket M).vy * ((earthY : K) - (newRocket M).y) = 0 ∧
      0 ≤ (newRocket M).vx ∧ (newRocket M).vy = 0 ∧
      (newRocket M).vx ^ 2 + (newRocket M).vy ^ 2 = (earthM : K) / ((earthR + 30 : Int) : K) ∧
      (newRocket M).vx ^ 2 + (newRocket M).vy ^ 2 = 2 := by
  have h2 := hs 2 (by norm_num)
  have e : (newRocket M).vx = M.Sqrt 2 := by
    simp only [newRocket]
    congr 1
    norm_num [earthM, earthR]
  have ey : (newRocket M).y = 190 := by
    simp only [newRocket]
    norm_num [earthY, screenCenterY, screenHeight, earthR]
  have ex : (newRocket M).x = 320 := by simp [newRocket]
  have evy : (newRocket M).vy = 0 := rfl
  rw [e, ey, ex, evy]
  refine ⟨by simp, rfl, rfl, by norm_num, by norm_num [earthR], by norm_num [earthR], by norm_num,
    h2.1, rfl, ?_, ?_⟩
  · rw [h2.2]; norm_num [earthR]
  · rw [h2.2]; norm_num

/-- Witness of C10: the real square root is exact, and with it the launch speed
squares to 2. -/
theorem newRocket_launch_witness :
    SqrtExact (⟨Real.pi, Real.sqrt, fun y x => Complex.arg ⟨x, y⟩, Real.cos, Real.sin⟩ :
        MathLib ℝ) ∧
      (newRocket (⟨Real.pi, Real.sqrt, fun y x => Complex.arg ⟨x, y⟩, Real.cos, Real.sin⟩ :
        MathLib ℝ)).vx ^ 2 = 2 ∧
      (newRocket (⟨Real.pi, Real.sqrt, fun y x => Complex.arg ⟨x, y⟩, Real.cos, Real.sin⟩ :
        MathLib ℝ)).y = 190 := by
  have hs : SqrtExact (⟨Real.pi, Real.sqrt, fun y x => Complex.arg ⟨x, y⟩, Real.cos,
      Real.sin⟩ : MathLib ℝ) := fun a ha => ⟨Real.sqrt_nonneg a, Real.sq_sqrt ha⟩
  have h := newRocket_launch _ hs
  refine ⟨hs, ?_, h.2.1⟩
  have h11 := h.2.2.2.2.2.2.2.2.2.2
  have h9 := h.2.2.2.2.2.2.2.2.1
  rw [h9] at h11
  simpa using h11

/-! ## The collision loop -/

theorem scorePlus_bands (d : K) :
    (d < 100 → scorePlus d = 1) ∧ (100 ≤ d → d < 150 → scorePlus d = 2) ∧
      (150 ≤ d → scorePlus d = 3) := by
  unfold scorePlus
  refine ⟨fun h => by simp [h], fun h1 h2 => ?_, fun h => ?_⟩
  · simp [not_lt.mpr h1, h2]
  · have h1 : ¬ d < 100 := not_lt.mpr (le_trans (by norm_num) h)
    simp [h1, not_lt.mpr h]

theorem scorePlus_range (d : K) : 1 ≤ scorePlus d ∧ scorePlus d ≤ 3 := by
  unfold scorePlus
  split_ifs <;> simp

/-- The loop over `pre ++ rest` runs `rest` from the state reached after `pre`,
provided no meteoroid of `pre` ends the loop. -/
theorem collisionLoop_append (M : MathLib K) (pre rest : List (meteoroid K))
    (h : ∀ x ∈ pre, ¬ hitsEarth x) (w : World K) (kept : List (meteoroid K)) :
    collisionLoop M (pre ++ rest) w kept
      = collisionLoop M rest (collisionLoop M pre w kept).1 (collisionLoop M pre w kept).2 := by
  induction pre generalizing w kept with
  | nil => rfl
  | cons a pre ih =>
    have ha : ¬ hitsEarth a := h a (List.mem_cons_self _ _)
    have hp : ∀ x ∈ pre, ¬ hitsEarth x := fun x hx => h x (List.mem_cons_of_mem _ hx)
    simp only [List.cons_append, collisionLoop, if_neg ha]
    exact ih hp _ _

theorem collisionLoop_singleton (M : MathLib K) (m : meteoroid K) (w : World K)
    (kept : List (meteoroid K)) :
    (collisionLoop M [m] w kept).1.g.score = (rocketRule M m w kept).1.g.score ∧
    (collisionLoop M [m] w kept).1.g.effects = (rocketRule M m w kept).1.g.effects := by
  simp only [collisionLoop]
  split_ifs <;> simp [earthRule]

/-! ## C1: the score of a hit -/

/-- Under an exact square root the distance computed at line 436 is the
non-negative number whose square is the squared distance to (320, 240). -/
theorem earthDistance_exact (M : MathLib K) (hs : SqrtExact M) (m : meteoroid K) (d : K)
    (hd : 0 ≤ d) (hsq : d ^ 2 = (m.x - 320) ^ 2 + (m.y - 240) ^ 2) :
    earthDistance M m = d := by
  have ha : (0 : K) ≤ (m.x - 320) ^ 2 + (m.y - 240) ^ 2 := by positivity
  obtain ⟨s0, s2⟩ := hs _ ha
  have e : earthDistance M m = M.Sqrt ((m.x - 320) ^ 2 + (m.y - 240) ^ 2) := by
    simp [earthDistance]
  rw [e]
  have h2 : M.Sqrt ((m.x - 320) ^ 2 + (m.y - 240) ^ 2) ^ 2 = d ^ 2 := by rw [s2, hsq]
  exact (pow_left_inj₀ s0 hd (by norm_num)).mp h2

/-- C1: let the collision loop, started in world `w`, reach meteoroid `m` after
the meteoroids `pre` (none of which ended the loop), and let `m` overlap the
rocket of that moment (squared centre distance below the squared sum of the
radii).  With an exact `math.Sqrt`, the pass through `m` raises the score by
`plus` and appends one effect at the position of `m` with that `plus` and
elapsed ticks 0, where, for `d` the distance of `m` to the attractor at
(320, 240), that is, the non-negative `d` with
`d ^ 2 = (m.x - 320) ^ 2 + (m.y - 240) ^ 2`, `plus` is 1 if `d < 100`, 2 if
`100 ≤ d < 150` and 3 if `150 ≤ d`. -/
theorem hit_scores (M : MathLib K) (hs : SqrtExact M) (w : World K)
    (kept pre : List (meteoroid K))
    (m : meteoroid K) (hpre : ∀ x ∈ pre, ¬ hitsEarth x)
    (hhit : hitsRocket m (collisionLoop M pre w kept).1.g.rocket) :
    ∃ (plus : Int) (angles : List K),
      (∀ d : K, 0 ≤ d → d ^ 2 = (m.x - 320) ^ 2 + (m.y - 240) ^ 2 →
        (d < 100 → plus = 1) ∧ (100 ≤ d → d < 150 → plus = 2) ∧ (150 ≤ d → plus = 3)) ∧
      (collisionLoop M (pre ++ [m]) w kept).1.g.score
        = (collisionLoop M pre w kept).1.g.score + plus ∧
      (collisionLoop M (pre ++ [m]) w kept).1.g.effects
        = (collisionLoop M pre w kept).1.g.effects
            ++ [{ x := m.x, y := m.y, ticks := 0, angles := angles, plus := plus }] := by
  refine ⟨scorePlus (earthDistance M m),
    (effectAngles M (collisionLoop M pre w kept).1.rnd).1, ?_, ?_⟩
  · intro d hd hsq
    rw [earthDistance_exact M hs m d hd hsq]
    exact scorePlus_bands d
  rw [collisionLoop_append M pre [m] hpre]
  obtain ⟨h1, h2⟩ := collisionLoop_singleton M m (collisionLoop M pre w kept).1
    (collisionLoop M pre w kept).2
  rw [h1, h2]
  simp [rocketRule, hhit, hitEffect]

/-- Witness of C1: with the real square root, the loop passes a far meteoroid and
then reaches one at (110, 240), at distance 210 from the attractor, that
overlaps the rocket at (100, 240). -/
theorem hit_scores_witness :
    ∃ M : MathLib ℝ, M.Sqrt = Real.sqrt ∧ SqrtExact M ∧
      (∀ x ∈ [meteoroidAt (200 : ℝ) 240 0 0], ¬ hitsEarth x) ∧
      hitsRocket (meteoroidAt (110 : ℝ) 240 0 0)
        (collisionLoop M [meteoroidAt 200 240 0 0] ⟨oneHitGame ℝ, zeroRand ℝ, []⟩ []).1.g.rocket ∧
      (0 : ℝ) ≤ 210 ∧
      (210 : ℝ) ^ 2 = ((meteoroidAt (110 : ℝ) 240 0 0).x - 320) ^ 2
        + ((meteoroidAt (110 : ℝ) 240 0 0).y - 240) ^ 2 ∧
      ∃ (plus : Int) (angles : List ℝ),
        (∀ d : ℝ, 0 ≤ d → d ^ 2 = ((meteoroidAt (110 : ℝ) 240 0 0).x - 320) ^ 2
            + ((meteoroidAt (110 : ℝ) 240 0 0).y - 240) ^ 2 →
          (d < 100 → plus = 1) ∧ (100 ≤ d → d < 150 → plus = 2) ∧ (150 ≤ d → plus = 3)) ∧
        (collisionLoop M ([meteoroidAt 200 240 0 0] ++ [meteoroidAt 110 240 0 0])
            ⟨oneHitGame ℝ, zeroRand ℝ, []⟩ []).1.g.score
          = (collisionLoop M [meteoroidAt 200 240 0 0]
              ⟨oneHitGame ℝ, zeroRand ℝ, []⟩ []).1.g.score + plus ∧
        (collisionLoop M ([meteoroidAt 200 240 0 0] ++ [meteoroidAt 110 240 0 0])
            ⟨oneHitGame ℝ, zeroRand ℝ, []⟩ []).1.g.effects
          = (collisionLoop M [meteoroidAt 200 240 0 0]
              ⟨oneHitGame ℝ, zeroRand ℝ, []⟩ []).1.g.effects
              ++ [{ x := (meteoroidAt (110 : ℝ) 240 0 0).x,
                    y := (meteoroidAt (110 : ℝ) 240 0 0).y,
                    ticks := 0, angles := angles, plus := plus }] := by
  have hs : SqrtExact (⟨Real.pi, Real.sqrt, fun y x => Complex.arg ⟨x, y⟩, Real.cos,
      Real.sin⟩ : MathLib ℝ) := fun a ha => ⟨Real.sqrt_nonneg a, Real.sq_sqrt ha⟩
  have h1 : ∀ x ∈ [meteoroidAt (200 : ℝ) 240 0 0], ¬ hitsEarth x := by
    norm_num [hitsEarth, meteoroidAt]
  have h2 : hitsRocket (meteoroidAt (110 : ℝ) 240 0 0)
      (collisionLoop (⟨Real.pi, Real.sqrt, fun y x => Complex.arg ⟨x, y⟩, Real.cos,
        Real.sin⟩ : MathLib ℝ) [meteoroidAt 200 240 0 0]
        ⟨oneHitGame ℝ, zeroRand ℝ, []⟩ []).1.g.rocket := by
    norm_num [collisionLoop, rocketRule, hitsRocket, hitsEarth, meteoroidAt, oneHitGame,
      playingGame, rocketAt]
  exact ⟨_, rfl, hs, h1, h2, by norm_num, by norm_num [meteoroidAt],
    hit_scores _ hs _ [] _ _ h1 h2⟩

/-! ## The tick around the collision loop -/

/-- In Playing mode `Update` is the collision loop and the end of the tick run
from `collisionInput`. -/
theorem Update_playing (M : MathLib K) (fuel : Nat) (t : TouchContext) (rnd : Rand K)
    (g : Game K) (h : g.mode = gameModePlaying) :
    Update M fuel t rnd g
      = (collisionInput M fuel t rnd g).map
          (fun b => finishTick (collisionLoop M b.g.meteoroids b [])) := by
  unfold Update updateWorld collisionInput
  have e : (enterTick ({ g := g, rnd := rnd, log := [] } : World K)).g.mode = gameModePlaying := h
  simp only [e, updatePlaying]
  cases beforeCollision M fuel t (enterTick { g := g, rnd := rnd, log := [] }) <;> rfl

/-- What the phases before the collision loop leave untouched. -/
theorem collisionInput_frame (M : MathLib K) (fuel : Nat) (t : TouchContext) (rnd : Rand K)
    (g : Game K) (b : World K) (h : collisionInput M fuel t rnd g = some b) :
    b.g.mode = g.mode ∧ b.g.ticksFromModeStart = (g.ticksFromModeStart + 1) % 2 ^ 64 ∧
      b.g.score = g.score ∧ b.g.effects = tickEffects g.effects ∧ gameOverCount b.log = 0 ∧
      b.log.count Event.playHit = 0 := by
  unfold collisionInput beforeCollision at h
  simp only [enterTick] at h
  split at h
  · exact absurd h (by simp)
  · simp only [Option.some.injEq] at h
    subst h
    refine ⟨rfl, rfl, rfl, rfl, ?_, ?_⟩
    · simp only [gameOverCount]
      split_ifs <;> simp [Event.isGameOver]
    · split_ifs <;> simp

theorem rocketRule_frame (M : MathLib K) (m : meteoroid K) (w : World K)
    (kept : List (meteoroid K)) :
    (rocketRule M m w kept).1.g.mode = w.g.mode ∧
      (rocketRule M m w kept).1.g.ticksFromModeStart = w.g.ticksFromModeStart ∧
      gameOverCount (rocketRule M m w kept).1.log = gameOverCount w.log := by
  unfold rocketRule
  split_ifs <;> simp [gameOverCount, Event.isGameOver]

/-- A loop that no meteoroid ends leaves the mode, the tick counter and the
number of "game_over" events as they were. -/
theorem collisionLoop_frame (M : MathLib K) (ms : List (meteoroid K))
    (h : ∀ x ∈ ms, ¬ hitsEarth x) (w : World K) (kept : List (meteoroid K)) :
    (collisionLoop M ms w kept).1.g.mode = w.g.mode ∧
      (collisionLoop M ms w kept).1.g.ticksFromModeStart = w.g.ticksFromModeStart ∧
      gameOverCount (collisionLoop M ms w kept).1.log = gameOverCount w.log := by
  induction ms generalizing w kept with
  | nil => exact ⟨rfl, rfl, rfl⟩
  | cons a ms ih =>
    have ha : ¬ hitsEarth a := h a (List.mem_cons_self _ _)
    have hp : ∀ x ∈ ms, ¬ hitsEarth x := fun x hx => h x (List.mem_cons_of_mem _ hx)
    simp only [collisionLoop, if_neg ha]
    obtain ⟨i1, i2, i3⟩ := ih hp (rocketRule M a w kept).1 (rocketRule M a w kept).2
    obtain ⟨r1, r2, r3⟩ := rocketRule_frame M a w kept
    exact ⟨i1.trans r1, i2.trans r2, i3.trans r3⟩

/-- The loop ends at the first meteoroid within collision distance of the
attractor. -/
theorem collisionLoop_break (M : MathLib K) (pre post : List (meteoroid K)) (m : meteoroid K)
    (hpre : ∀ x ∈ pre, ¬ hitsEarth x) (hm : hitsEarth m) (w : World K)
    (kept : List (meteoroid K)) :
    collisionLoop M (pre ++ m :: post) w kept
      = earthRule m (rocketRule M m (collisionLoop M pre w kept).1
          (collisionLoop M pre w kept).2).1 := by
  rw [collisionLoop_append M pre (m :: post) hpre]
  simp only [collisionLoop, if_pos hm]

theorem exists_first_earth_hit (ms : List (meteoroid K)) (h : ∃ x ∈ ms, hitsEarth x) :
    ∃ pre m post, ms = pre ++ m :: post ∧ (∀ x ∈ pre, ¬ hitsEarth x) ∧ hitsEarth m := by
  induction ms with
  | nil => simp at h
  | cons a ms ih =>
    by_cases ha : hitsEarth a
    · exact ⟨[], a, ms, rfl, by simp, ha⟩
    · obtain ⟨x, hx, hxe⟩ := h
      have hx' : x ∈ ms := by
        rcases List.mem_cons.mp hx with e | e
        · exact absurd (e ▸ hxe) ha
        · exact e
      obtain ⟨pre, m, post, e, hp, hm⟩ := ih ⟨x, hx', hxe⟩
      refine ⟨a :: pre, m, post, by simp [e], ?_, hm⟩
      intro y hy
      rcases List.mem_cons.mp hy with e | e
      · exact e ▸ ha
      · exact hp y e

theorem finishTick_rocket (s : World K × List (meteoroid K)) :
    (finishTick s).g.rocket = s.1.g.rocket := by
  unfold finishTick rocketEarthRule
  split_ifs <;> rfl

theorem finishTick_meteoroids (s : World K × List (meteoroid K)) :
    (finishTick s).g.meteoroids = if rocketHitsEarth s.1.g.rocket then [] else s.2 := by
  unfold finishTick rocketEarthRule
  split_ifs <;> rfl

theorem finishTick_mode (s : World K × List (meteoroid K)) :
    (finishTick s).g.mode
      = if rocketHitsEarth s.1.g.rocket then gameModeGameOver else s.1.g.mode := by
  unfold finishTick rocketEarthRule
  split_ifs <;> rfl

theorem finishTick_ticks (s : World K × List (meteoroid K)) :
    (finishTick s).g.ticksFromModeStart = s.1.g.ticksFromModeStart := by
  unfold finishTick rocketEarthRule
  split_ifs <;> rfl

theorem finishTick_gameOverCount (s : World K × List (meteoroid K)) :
    gameOverCount (finishTick s).log
      = gameOverCount s.1.log + if rocketHitsEarth s.1.g.rocket then 1 else 0 := by
  unfold finishTick rocketEarthRule
  split_ifs <;> simp [gameOverCount, Event.isGameOver]

/-! ## C4: a meteoroid reaches the attractor -/

/-- C4: in a Playing tick let `m` be the first meteoroid, in the order of the
collection after movement and eviction, within collision distance of the
attractor.  Then `Update` returns, the mode is GameOver, the collection holds
exactly `m` unless the rocket itself ends the tick within collision distance of
the attractor, and the result is the one computed from the collection cut off
after `m`: the meteoroids behind `m` are not evaluated. -/
theorem meteoroid_impact_ends_game (M : MathLib K) (fuel : Nat) (t : TouchContext)
    (rnd : Rand K) (g : Game K) (b : World K) (pre post : List (meteoroid K)) (m : meteoroid K)
    (hmode : g.mode = gameModePlaying)
    (hb : collisionInput M fuel t rnd g = some b)
    (hsplit : b.g.meteoroids = pre ++ m :: post)
    (hpre : ∀ x ∈ pre, ¬ hitsEarth x)
    (hm : hitsEarth m) :
    ∃ w', Update M fuel t rnd g = some w' ∧
      w'.g.mode = gameModeGameOver ∧
      (¬ rocketHitsEarth w'.g.rocket → w'.g.meteoroids = [m]) ∧
      w' = finishTick (collisionLoop M (pre ++ [m]) b []) := by
  refine ⟨finishTick (collisionLoop M (pre ++ m :: post) b []), ?_, ?_, ?_, ?_⟩
  · rw [Update_playing M fuel t rnd g hmode, hb, Option.map_some', hsplit]
  · rw [finishTick_mode, collisionLoop_break M pre post m hpre hm]
    split_ifs <;> rfl
  · rw [finishTick_rocket, finishTick_meteoroids, collisionLoop_break M pre post m hpre hm]
    intro h
    rw [if_neg h]
    rfl
  · rw [collisionLoop_break M pre post m hpre hm, collisionLoop_break M pre [] m hpre hm]

/-! ## C9: the "game_over" events of a tick -/

/-- C9 (as amended): in a Playing tick the number of "game_over" events is the
number of attractor rules that fire: one if some meteoroid is within collision
distance of the attractor after movement, plus one if the rocket ends the tick
within collision distance.  It is 0 exactly when the mode after the call is not
GameOver, and never more than 2. -/
theorem game_over_event_count (M : MathLib K) (fuel : Nat) (t : TouchContext)
    (rnd : Rand K) (g : Game K) (b : World K)
    (hmode : g.mode = gameModePlaying)
    (hb : collisionInput M fuel t rnd g = some b) :
    ∃ w', Update M fuel t rnd g = some w' ∧
      gameOverCount w'.log
        = (if ∃ m ∈ b.g.meteoroids, hitsEarth m then 1 else 0)
          + (if rocketHitsEarth w'.g.rocket then 1 else 0) ∧
      (gameOverCount w'.log = 0 ↔ w'.g.mode ≠ gameModeGameOver) ∧
      gameOverCount w'.log ≤ 2 := by
  obtain ⟨f1, -, -, -, f5, -⟩ := collisionInput_frame M fuel t rnd g b hb
  rw [hmode] at f1
  refine ⟨finishTick (collisionLoop M b.g.meteoroids b []), ?_, ?_⟩
  · rw [Update_playing M fuel t rnd g hmode, hb, Option.map_some']
  rw [finishTick_gameOverCount, finishTick_rocket, finishTick_mode]
  by_cases he : ∃ m ∈ b.g.meteoroids, hitsEarth m
  · obtain ⟨pre, m, post, e, hp, hm⟩ := exists_first_earth_hit _ he
    rw [if_pos he, e, collisionLoop_break M pre post m hp hm]
    obtain ⟨-, -, c3⟩ := collisionLoop_frame M pre hp b []
    obtain ⟨-, -, r3⟩ := rocketRule_frame M m (collisionLoop M pre b []).1
      (collisionLoop M pre b []).2
    have hc : gameOverCount (earthRule m (rocketRule M m (collisionLoop M pre b []).1
        (collisionLoop M pre b []).2).1).1.log = 1 := by
      have : gameOverCount (rocketRule M m (collisionLoop M pre b []).1
        (collisionLoop M pre b []).2).1.log = 0 := by rw [r3, c3, f5]
      simp only [gameOverCount] at this
      simp [earthRule, gameOverCount, Event.isGameOver, this]
    rw [hc]
    have hmd : (earthRule m (rocketRule M m (collisionLoop M pre b []).1
        (collisionLoop M pre b []).2).1).1.g.mode = gameModeGameOver := rfl
    rw [hmd]
    split_ifs <;> simp
  · rw [if_neg he]
    have hn : ∀ x ∈ b.g.meteoroids, ¬ hitsEarth x := fun x hx hxe => he ⟨x, hx, hxe⟩
    obtain ⟨c1, -, c3⟩ := collisionLoop_frame M _ hn b []
    rw [c3, f5, c1, f1]
    split_ifs <;> simp

/-! ## Worked ticks for C4 and C9 -/

/-- The tick from `bothGame`, for every math package exact on the axes. -/
theorem bothGame_trace (M : MathLib K) (h : AxisExact M) :
    (Update M 0 noTouch (zeroRand K) (bothGame K)).map
      (fun w => (w.g.mode, gameOverCount w.log)) = some (gameModeGameOver, 2) := by
  have g1 := calcGravity_east M h 300 (by norm_num)
  have g2 := calcGravity_south M h 214 (by norm_num)
  simp [Update, updateWorld, enterTick, bothGame, playingGame, updatePlaying, beforeCollision,
    spawnStep, noTouch, rocketAt, meteoroidAt, moveRocket, boostRocket, gravityRocket, g1, g2,
    rocketOut, gravityMeteoroid, moveMeteoroids_nil, moveMeteoroids_cons, moveMeteoroid,
    meteoroidIn, screenWidth, screenHeight, finishTick, rocketEarthRule, rocketHitsEarth,
    gameOverCount, tickEffects]
  norm_num [collisionLoop, rocketRule, hitsRocket, hitsEarth, earthRule, Event.isGameOver]

/-- Counterexample to C9 as stated: in one call of `Update` from `bothGame` the
meteoroid above the attractor and the rocket west of it are both within
collision distance of the attractor; the mode after the call is GameOver and
two "game_over" events are emitted. -/
theorem double_game_over_event :
    (bothGame ℚ).mode = gameModePlaying ∧
      (Update mathQ 0 noTouch (zeroRand ℚ) (bothGame ℚ)).map
        (fun w => (w.g.mode, gameOverCount w.log)) = some (gameModeGameOver, 2) :=
  ⟨rfl, bothGame_trace mathQ mathQ_axisExact⟩

/-- Witness of C9 (as amended): the tick from `bothGame`. -/
theorem game_over_event_count_witness :
    (bothGame ℚ).mode = gameModePlaying ∧
      ∃ b, collisionInput mathQ 0 noTouch (zeroRand ℚ) (bothGame ℚ) = some b ∧
        ∃ w', Update mathQ 0 noTouch (zeroRand ℚ) (bothGame ℚ) = some w' ∧
          gameOverCount w'.log
            = (if ∃ m ∈ b.g.meteoroids, hitsEarth m then 1 else 0)
              + (if rocketHitsEarth w'.g.rocket then 1 else 0) ∧
          (gameOverCount w'.log = 0 ↔ w'.g.mode ≠ gameModeGameOver) ∧
          gameOverCount w'.log ≤ 2 := by
  obtain ⟨b, hb⟩ : ∃ b, collisionInput mathQ 0 noTouch (zeroRand ℚ) (bothGame ℚ) = some b :=
    ⟨_, rfl⟩
  exact ⟨rfl, b, hb, game_over_event_count mathQ 0 noTouch (zeroRand ℚ) (bothGame ℚ) b rfl hb⟩

/-- Witness of C4: the tick from `impactGame`; the meteoroid that reaches the
attractor is first in the collection and one more meteoroid stands behind it. -/
theorem meteoroid_impact_ends_game_witness :
    (impactGame ℚ).mode = gameModePlaying ∧
      ∃ b, collisionInput mathQ 0 noTouch (zeroRand ℚ) (impactGame ℚ) = some b ∧
        b.g.meteoroids
          = [] ++ moveMeteoroid (gravityMeteoroid mathQ (meteoroidAt 292 240 0 0))
            :: [moveMeteoroid (gravityMeteoroid mathQ (meteoroidAt 110 240 0 0))] ∧
        (∀ x ∈ ([] : List (meteoroid ℚ)), ¬ hitsEarth x) ∧
        hitsEarth (moveMeteoroid (gravityMeteoroid mathQ (meteoroidAt 292 240 0 0))) ∧
        ∃ w', Update mathQ 0 noTouch (zeroRand ℚ) (impactGame ℚ) = some w' ∧
          w'.g.mode = gameModeGameOver ∧
          (¬ rocketHitsEarth w'.g.rocket → w'.g.meteoroids
            = [moveMeteoroid (gravityMeteoroid mathQ (meteoroidAt 292 240 0 0))]) ∧
          w' = finishTick (collisionLoop mathQ
            ([] ++ [moveMeteoroid (gravityMeteoroid mathQ (meteoroidAt 292 240 0 0))]) b []) := by
  have g1 := calcGravity_east mathQ mathQ_axisExact 292 (by norm_num)
  have g2 := calcGravity_east mathQ mathQ_axisExact 110 (by norm_num)
  obtain ⟨b, hb, hs⟩ : ∃ b, collisionInput mathQ 0 noTouch (zeroRand ℚ) (impactGame ℚ) = some b ∧
      b.g.meteoroids
          = [] ++ moveMeteoroid (gravityMeteoroid mathQ (meteoroidAt 292 240 0 0))
            :: [moveMeteoroid (gravityMeteoroid mathQ (meteoroidAt 110 240 0 0))] := by
    refine ⟨_, rfl, ?_⟩
    simp [impactGame, playingGame, enterTick, moveMeteoroids_cons, moveMeteoroids_nil,
      meteoroidIn, moveMeteoroid, gravityMeteoroid, meteoroidAt, g1, g2, screenWidth,
      screenHeight]
    norm_num
  have hp : ∀ x ∈ ([] : List (meteoroid ℚ)), ¬ hitsEarth x := by simp
  have hm : hitsEarth (moveMeteoroid (gravityMeteoroid mathQ (meteoroidAt 292 240 0 0))) := by
    simp [hitsEarth, moveMeteoroid, gravityMeteoroid, meteoroidAt, g1]
    norm_num
  exact ⟨rfl, b, hb, hs, hp, hm,
    meteoroid_impact_ends_game mathQ 0 noTouch (zeroRand ℚ) (impactGame ℚ) b [] _ _ rfl hb hs hp hm⟩

/-! ## C2: hits per tick -/

/-- The rational square root is exact on squares. -/
theorem mathQ_sqrtOnSquares : SqrtOnSquares mathQ := by
  intro q hq
  show sqrtQ (q ^ 2) = q
  rcases hq.eq_or_lt with h0 | hpos
  · subst h0; simp [sqrtQ]
  · have ha : ¬ q ^ 2 ≤ 0 := not_le.mpr (by positivity)
    have hn : 0 < q.num := Rat.num_pos.mpr hpos
    have e1 : Nat.sqrt (q ^ 2).num.natAbs = q.num.natAbs := by
      rw [Rat.num_pow, Int.natAbs_pow, Nat.sqrt_eq']
    have e2 : Nat.sqrt (q ^ 2).den = q.den := by
      rw [Rat.den_pow, Nat.sqrt_eq']
    have c1 : q.num.natAbs * q.num.natAbs = (q ^ 2).num.natAbs := by
      rw [Rat.num_pow, Int.natAbs_pow, sq]
    have c2 : q.den * q.den = (q ^ 2).den := by
      rw [Rat.den_pow, sq]
    simp only [sqrtQ, if_neg ha, e1, e2, c1, c2, and_self, if_true]
    have : ((q.num.natAbs : ℕ) : ℚ) = ((q.num : ℤ) : ℚ) := by
      rw [← Int.cast_natCast, Int.natAbs_of_nonneg hn.le]
    rw [this]
    exact Rat.num_div_den q

/-- The real square root is exact on squares. -/
theorem real_sqrtOnSquares :
    SqrtOnSquares (⟨Real.pi, Real.sqrt, fun y x => Complex.arg ⟨x, y⟩, Real.cos, Real.sin⟩ :
      MathLib ℝ) :=
  fun _ hq => Real.sqrt_sq hq

/-- The tick from `twoHitGame`, for every math package exact on the axes: two
hits are counted. -/
theorem twoHitGame_trace (M : MathLib K) (h : AxisExact M) (hs : SqrtOnSquares M) :
    (Update M 0 noTouch (zeroRand K) (twoHitGame K)).map
      (fun w => (w.g.effects.length, w.log.count Event.playHit, w.g.score, w.g.meteoroids.length,
        w.g.mode))
      = some (2, 2, 4, 0, gameModePlaying) := by
  have g0 := calcGravity_east M h 100 (by norm_num)
  have g1 := calcGravity_east M h 110 (by norm_num)
  have g2 := calcGravity_south M h 185 (by norm_num)
  have s1 := hs (320 - (110 + 100 / (320 - 110) ^ 2)) (by norm_num)
  have s2 := hs (240 - (185 + 100 / (240 - 185) ^ 2)) (by norm_num)
  norm_num at s1 s2
  simp [Update, updateWorld, enterTick, twoHitGame, playingGame, updatePlaying, beforeCollision,
    spawnStep, noTouch, rocketAt, meteoroidAt, moveRocket, boostRocket, gravityRocket, g0, g1, g2,
    rocketOut, gravityMeteoroid, moveMeteoroids_nil, moveMeteoroids_cons, moveMeteoroid,
    meteoroidIn, screenWidth, screenHeight, finishTick, rocketEarthRule, rocketHitsEarth,
    tickEffects]
  norm_num [collisionLoop, rocketRule, hitsRocket, hitsEarth, earthRule, newRocket, earthDistance,
    hitEffect, earthY, earthR, screenCenterY, screenHeight, s1, s2, scorePlus]

/-- Counterexample to C2 as stated: in one call of `Update` from `twoHitGame` the
meteoroid next to the rocket is scored (+3), the rocket is replaced by a fresh
one at (320, 190), and the meteoroid resting there is scored against the
replacement (+1): two effects are appended, two meteoroids are removed by the
rocket rule and the score grows by 4. -/
theorem two_hits_in_one_tick :
    (twoHitGame ℚ).mode = gameModePlaying ∧ (twoHitGame ℚ).effects.length = 0 ∧
      (twoHitGame ℚ).score = 0 ∧ (twoHitGame ℚ).meteoroids.length = 2 ∧
      (Update mathQ 0 noTouch (zeroRand ℚ) (twoHitGame ℚ)).map
        (fun w => (w.g.effects.length, w.log.count Event.playHit, w.g.score,
          w.g.meteoroids.length, w.g.mode))
        = some (2, 2, 4, 0, gameModePlaying) :=
  ⟨rfl, rfl, rfl, rfl, twoHitGame_trace mathQ mathQ_axisExact mathQ_sqrtOnSquares⟩

/-- A loop in which no meteoroid overlaps the rocket changes neither the rocket
nor the score nor the effects, and keeps every meteoroid it passes. -/
theorem collisionLoop_no_hit (M : MathLib K) (ms : List (meteoroid K)) (w : World K)
    (kept : List (meteoroid K)) (h : ∀ m ∈ ms, ¬ hitsRocket m w.g.rocket) :
    (collisionLoop M ms w kept).1.g.rocket = w.g.rocket ∧
      (collisionLoop M ms w kept).1.g.score = w.g.score ∧
      (collisionLoop M ms w kept).1.g.effects = w.g.effects ∧
      (collisionLoop M ms w kept).1.log.count Event.playHit = w.log.count Event.playHit ∧
      ((∀ x ∈ ms, ¬ hitsEarth x) → (collisionLoop M ms w kept).2 = kept ++ ms) := by
  induction ms generalizing kept with
  | nil => simp [collisionLoop]
  | cons a ms ih =>
    have ha : ¬ hitsRocket a w.g.rocket := h a (List.mem_cons_self _ _)
    have hp : ∀ m ∈ ms, ¬ hitsRocket m w.g.rocket := fun x hx => h x (List.mem_cons_of_mem _ hx)
    have hr : rocketRule M a w kept = (w, kept ++ [a]) := by simp [rocketRule, ha]
    simp only [collisionLoop, hr]
    split_ifs with he
    · refine ⟨rfl, rfl, rfl, by simp [earthRule], fun hm => ?_⟩
      exact absurd he (hm a (List.mem_cons_self _ _))
    · obtain ⟨i1, i2, i3, i4, i5⟩ := ih (kept ++ [a]) hp
      refine ⟨i1, i2, i3, i4, fun hm => ?_⟩
      rw [i5 (fun x hx => hm x (List.mem_cons_of_mem _ hx))]; simp

/-- A loop in which no meteoroid overlaps the freshly launched rocket counts at
most one hit. -/
theorem collisionLoop_one_hit (M : MathLib K) (ms : List (meteoroid K)) (w : World K)
    (kept : List (meteoroid K)) (h : ∀ m ∈ ms, ¬ hitsRocket m (newRocket M)) :
    (∃ es, (collisionLoop M ms w kept).1.g.effects = w.g.effects ++ es ∧ es.length ≤ 1) ∧
      w.g.score ≤ (collisionLoop M ms w kept).1.g.score ∧
      (collisionLoop M ms w kept).1.g.score ≤ w.g.score + 3 ∧
      (collisionLoop M ms w kept).1.log.count Event.playHit ≤ w.log.count Event.playHit + 1 ∧
      ((∀ x ∈ ms, ¬ hitsEarth x) →
        kept.length + ms.length ≤ (collisionLoop M ms w kept).2.length + 1) := by
  induction ms generalizing w kept with
  | nil => exact ⟨⟨[], by simp [collisionLoop]⟩, by simp [collisionLoop]⟩
  | cons a ms ih =>
    have hp : ∀ m ∈ ms, ¬ hitsRocket m (newRocket M) :=
      fun x hx => h x (List.mem_cons_of_mem _ hx)
    obtain ⟨p1, p3⟩ := scorePlus_range (earthDistance M a)
    by_cases ha : hitsRocket a w.g.rocket
    · have e1 : (rocketRule M a w kept).1.g.rocket = newRocket M := by simp [rocketRule, ha]
      have e2 : (rocketRule M a w kept).1.g.score = w.g.score + scorePlus (earthDistance M a) := by
        simp [rocketRule, ha]
      have e3 : (rocketRule M a w kept).1.g.effects
          = w.g.effects ++ [hitEffect M a (effectAngles M w.rnd).1] := by
        simp [rocketRule, ha]
      have e4 : (rocketRule M a w kept).1.log.count Event.playHit
          = w.log.count Event.playHit + 1 := by
        simp [rocketRule, ha]
      have e5 : (rocketRule M a w kept).2 = kept := by simp [rocketRule, ha]
      simp only [collisionLoop]
      split_ifs with he
      · refine ⟨⟨[hitEffect M a (effectAngles M w.rnd).1], ?_, by simp⟩, ?_, ?_, ?_, ?_⟩
        · simp [earthRule, e3]
        · simp only [earthRule]; rw [e2]; linarith
        · simp only [earthRule]; rw [e2]; linarith
        · simp [earthRule, e4]
        · intro hm; exact absurd he (hm a (List.mem_cons_self _ _))
      · obtain ⟨i1, i2, i3, i4, i5⟩ := collisionLoop_no_hit M ms (rocketRule M a w kept).1
          (rocketRule M a w kept).2 (by rw [e1]; exact hp)
        refine ⟨⟨[hitEffect M a (effectAngles M w.rnd).1], ?_, by simp⟩, ?_, ?_, ?_, ?_⟩
        · rw [i3, e3]
        · rw [i2, e2]; linarith
        · rw [i2, e2]; linarith
        · rw [i4, e4]
        · intro hm
          rw [i5 (fun x hx => hm x (List.mem_cons_of_mem _ hx)), e5]
          simp only [List.length_cons, List.length_append]
          omega
    · have hr : rocketRule M a w kept = (w, kept ++ [a]) := by simp [rocketRule, ha]
      simp only [collisionLoop, hr]
      split_ifs with he
      · refine ⟨⟨[], by simp [earthRule]⟩, by simp [earthRule], by simp [earthRule],
          by simp [earthRule], ?_⟩
        intro hm; exact absurd he (hm a (List.mem_cons_self _ _))
      · obtain ⟨i1, i2, i3, i4, i5⟩ := ih w (kept ++ [a]) hp
        refine ⟨i1, i2, i3, i4, fun hm => ?_⟩
        have := i5 (fun x hx => hm x (List.mem_cons_of_mem _ hx))
        simp at this ⊢
        omega

theorem finishTick_frame (s : World K × List (meteoroid K)) :
    (finishTick s).g.effects = s.1.g.effects ∧ (finishTick s).g.score = s.1.g.score ∧
      (finishTick s).log.count Event.playHit = s.1.log.count Event.playHit := by
  unfold finishTick rocketEarthRule
  split_ifs <;> simp

/-- C2 (as amended): in a Playing tick in which no meteoroid overlaps a freshly
launched rocket at (320, 190) after movement, at most one meteoroid is counted as
hitting the rocket: at most one effect is appended, at most one hit is
signalled, at most one meteoroid is removed by the rocket rule, and the score
grows by at least 0 and at most 3. -/
theorem at_most_one_hit (M : MathLib K) (fuel : Nat) (t : TouchContext)
    (rnd : Rand K) (g : Game K) (b : World K)
    (hmode : g.mode = gameModePlaying)
    (hb : collisionInput M fuel t rnd g = some b)
    (hfresh : ∀ m ∈ b.g.meteoroids, ¬ hitsRocket m (newRocket M)) :
    ∃ w', Update M fuel t rnd g = some w' ∧
      (∃ es, w'.g.effects = b.g.effects ++ es ∧ es.length ≤ 1) ∧
      w'.log.count Event.playHit ≤ 1 ∧
      (w'.g.mode = gameModePlaying → b.g.meteoroids.length ≤ w'.g.meteoroids.length + 1) ∧
      g.score ≤ w'.g.score ∧ w'.g.score ≤ g.score + 3 := by
  obtain ⟨f1, -, f3, -, -, f6⟩ := collisionInput_frame M fuel t rnd g b hb
  obtain ⟨l1, l2, l3, l4, l5⟩ := collisionLoop_one_hit M b.g.meteoroids b [] hfresh
  obtain ⟨t1, t2, t3⟩ := finishTick_frame (collisionLoop M b.g.meteoroids b [])
  refine ⟨finishTick (collisionLoop M b.g.meteoroids b []), ?_, ?_, ?_, ?_, ?_, ?_⟩
  · rw [Update_playing M fuel t rnd g hmode, hb, Option.map_some']
  · rw [t1]; exact l1
  · rw [t3]; rw [f6] at l4; exact l4
  · intro hm
    rw [finishTick_mode] at hm
    rw [finishTick_meteoroids]
    by_cases hre : rocketHitsEarth (collisionLoop M b.g.meteoroids b []).1.g.rocket
    · rw [if_pos hre] at hm; exact absurd hm (by decide)
    · rw [if_neg hre] at hm
      rw [if_neg hre]
      have hne : ∀ x ∈ b.g.meteoroids, ¬ hitsEarth x := by
        intro x hx hxe
        obtain ⟨pre, m, post, e, hp, hme⟩ := exists_first_earth_hit _ ⟨x, hx, hxe⟩
        rw [e, collisionLoop_break M pre post m hp hme] at hm
        exact absurd hm (by simp [earthRule])
      have := l5 hne
      simpa using this
  · rw [t2, ← f3]; exact l2
  · rw [t2, ← f3]; exact l3

/-! ## C3: where gravity is evaluated -/

theorem rocketRule_hit_count (M : MathLib K) (m : meteoroid K) (w : World K)
    (kept : List (meteoroid K)) :
    (rocketRule M m w kept).1.log.count Event.playHit
      = w.log.count Event.playHit + (if hitsRocket m w.g.rocket then 1 else 0) ∧
    (¬ hitsRocket m w.g.rocket → (rocketRule M m w kept).1.g.rocket = w.g.rocket) := by
  unfold rocketRule
  split_ifs with h <;> simp [h]

theorem collisionLoop_hit_count_mono (M : MathLib K) (ms : List (meteoroid K)) (w : World K)
    (kept : List (meteoroid K)) :
    w.log.count Event.playHit ≤ (collisionLoop M ms w kept).1.log.count Event.playHit := by
  induction ms generalizing w kept with
  | nil => simp [collisionLoop]
  | cons a ms ih =>
    obtain ⟨r1, -⟩ := rocketRule_hit_count M a w kept
    simp only [collisionLoop]
    split_ifs with he
    · simp only [earthRule]
      have : List.count Event.playHit ((rocketRule M a w kept).1.log ++
          [Event.playGameOver, Event.logGameOver (rocketRule M a w kept).1.g.ticksFromModeStart
            (rocketRule M a w kept).1.g.score])
          = List.count Event.playHit (rocketRule M a w kept).1.log := by simp
      rw [this, r1]; omega
    · have := ih (rocketRule M a w kept).1 (rocketRule M a w kept).2
      rw [r1] at this; omega

/-- A loop that signals no hit leaves the rocket as it was. -/
theorem collisionLoop_rocket_of_no_hit (M : MathLib K) (ms : List (meteoroid K)) (w : World K)
    (kept : List (meteoroid K))
    (h : (collisionLoop M ms w kept).1.log.count Event.playHit = w.log.count Event.playHit) :
    (collisionLoop M ms w kept).1.g.rocket = w.g.rocket := by
  induction ms generalizing w kept with
  | nil => simp [collisionLoop]
  | cons a ms ih =>
    obtain ⟨r1, r2⟩ := rocketRule_hit_count M a w kept
    simp only [collisionLoop] at h ⊢
    split_ifs at h ⊢ with he
    · simp only [earthRule] at h ⊢
      have e : List.count Event.playHit ((rocketRule M a w kept).1.log ++
          [Event.playGameOver, Event.logGameOver (rocketRule M a w kept).1.g.ticksFromModeStart
            (rocketRule M a w kept).1.g.score])
          = List.count Event.playHit (rocketRule M a w kept).1.log := by simp
      rw [e, r1] at h
      by_cases hh : hitsRocket a w.g.rocket
      · rw [if_pos hh] at h; omega
      · exact r2 hh
    · have mono := collisionLoop_hit_count_mono M ms (rocketRule M a w kept).1
        (rocketRule M a w kept).2
      by_cases hh : hitsRocket a w.g.rocket
      · rw [r1, if_pos hh] at mono; omega
      · rw [r1, if_neg hh] at mono
        have h' : (collisionLoop M ms (rocketRule M a w kept).1 (rocketRule M a w kept).2).1.log.count
            Event.playHit = (rocketRule M a w kept).1.log.count Event.playHit := by
          rw [r1, if_neg hh]; omega
        rw [ih _ _ h']; exact r2 hh

/-- Every meteoroid the loop keeps was among those kept before or visited. -/
theorem collisionLoop_kept_subset (M : MathLib K) (ms : List (meteoroid K)) (w : World K)
    (kept : List (meteoroid K)) :
    ∀ x ∈ (collisionLoop M ms w kept).2, x ∈ kept ∨ x ∈ ms := by
  induction ms generalizing w kept with
  | nil => intro x hx; exact Or.inl hx
  | cons a ms ih =>
    simp only [collisionLoop]
    split_ifs with he
    · intro x hx
      simp only [earthRule, List.mem_singleton] at hx
      exact Or.inr (hx ▸ List.mem_cons_self _ _)
    · intro x hx
      rcases ih _ _ x hx with h | h
      · unfold rocketRule at h
        split_ifs at h
        · exact Or.inl h
        · rcases List.mem_append.mp h with h | h
          · exact Or.inl h
          · exact Or.inr (by simp at h; exact h ▸ List.mem_cons_self _ _)
      · exact Or.inr (List.mem_cons_of_mem _ h)

theorem moveMeteoroids_mem (ms : List (meteoroid K)) (x : meteoroid K)
    (h : x ∈ moveMeteoroids ms) : ∃ m ∈ ms, x = moveMeteoroid m := by
  unfold moveMeteoroids at h
  rw [List.mem_filterMap] at h
  obtain ⟨m, hm, e⟩ := h
  refine ⟨m, hm, ?_⟩
  dsimp only at e
  split_ifs at e
  simpa using e.symm

/-- The rocket, the thrust flag and the meteoroids with which the collision loop
starts. -/
theorem collisionInput_bodies (M : MathLib K) (fuel : Nat) (t : TouchContext) (rnd : Rand K)
    (g : Game K) (b : World K) (h : collisionInput M fuel t rnd g = some b) :
    (b.log.count Event.playRocketSet = 0 →
      b.g.rocket = gravityRocket M (boostRocket M b.g.hold (moveRocket g.rocket))) ∧
    ∃ ms1 rnd1, spawnStep M fuel ((g.ticksFromModeStart + 1) % 2 ^ 64) rnd g.meteoroids
        = some (ms1, rnd1) ∧
      b.g.meteoroids = moveMeteoroids (ms1.map (gravityMeteoroid M)) := by
  unfold collisionInput beforeCollision at h
  simp only [enterTick] at h
  split at h
  · exact absurd h (by simp)
  · rename_i ms1 rnd1 hsp
    simp only [Option.some.injEq] at h
    subst h
    refine ⟨?_, ms1, rnd1, hsp, rfl⟩
    dsimp only
    split_ifs <;> simp

theorem finishTick_log_count (s : World K × List (meteoroid K)) (e : Event)
    (h1 : e ≠ Event.playGameOver) (h2 : ∀ a c, e ≠ Event.logGameOver a c) :
    (finishTick s).log.count e = s.1.log.count e := by
  unfold finishTick rocketEarthRule
  split_ifs
  · simp only [List.count_append]
    have : List.count e [Event.playGameOver, Event.logGameOver s.1.g.ticksFromModeStart
        s.1.g.score] = 0 := by
      rw [List.count_eq_zero]
      intro hmem
      simp only [List.mem_cons, List.mem_singleton, List.not_mem_nil, or_false] at hmem
      rcases hmem with h | h
      · exact h1 h
      · exact h2 _ _ h
    simp [this]
  · rfl

theorem collisionLoop_rocketSet_count (M : MathLib K) (ms : List (meteoroid K)) (w : World K)
    (kept : List (meteoroid K)) :
    (collisionLoop M ms w kept).1.log.count Event.playRocketSet
      = w.log.count Event.playRocketSet := by
  induction ms generalizing w kept with
  | nil => simp [collisionLoop]
  | cons a ms ih =>
    have r : (rocketRule M a w kept).1.log.count Event.playRocketSet
        = w.log.count Event.playRocketSet := by
      unfold rocketRule
      split_ifs <;> simp
    simp only [collisionLoop]
    split_ifs with he
    · simp only [earthRule]
      rw [← r]
      simp
    · rw [ih, r]

/-- Where a Playing tick evaluates gravity.  The rocket moves first and gravity
is evaluated at its position after the move: when the rocket is not replaced in
the tick (no "rocket placed" cue, no hit), its new position is the old one plus
the old velocity and its new velocity is the boosted velocity plus `calcGravity`
at the new position.  Every meteoroid left after the tick comes from a meteoroid
`m` of the collection after the spawn step whose velocity grew by `calcGravity`
at the position of `m` before the move, and which then moved by the new
velocity. -/
theorem gravity_positions (M : MathLib K) (fuel : Nat) (t : TouchContext)
    (rnd : Rand K) (g : Game K) (w' : World K)
    (hmode : g.mode = gameModePlaying)
    (hU : Update M fuel t rnd g = some w') :
    (Event.playRocketSet ∉ w'.log → Event.playHit ∉ w'.log →
      w'.g.rocket.x = g.rocket.x + g.rocket.vx ∧
      w'.g.rocket.y = g.rocket.y + g.rocket.vy ∧
      w'.g.rocket.vx = (boostRocket M w'.g.hold (moveRocket g.rocket)).vx
        + (calcGravity M (g.rocket.x + g.rocket.vx) (g.rocket.y + g.rocket.vy)).1 ∧
      w'.g.rocket.vy = (boostRocket M w'.g.hold (moveRocket g.rocket)).vy
        + (calcGravity M (g.rocket.x + g.rocket.vx) (g.rocket.y + g.rocket.vy)).2) ∧
    ∃ ms1 rnd1, spawnStep M fuel ((g.ticksFromModeStart + 1) % 2 ^ 64) rnd g.meteoroids
        = some (ms1, rnd1) ∧
      ∀ m' ∈ w'.g.meteoroids, ∃ m ∈ ms1,
        m'.vx = m.vx + (calcGravity M m.x m.y).1 ∧
        m'.vy = m.vy + (calcGravity M m.x m.y).2 ∧
        m'.x = m.x + m'.vx ∧ m'.y = m.y + m'.vy := by
  rw [Update_playing M fuel t rnd g hmode] at hU
  cases hb : collisionInput M fuel t rnd g with
  | none => rw [hb] at hU; exact absurd hU (by simp)
  | some b =>
    rw [hb, Option.map_some', Option.some.injEq] at hU
    subst hU
    obtain ⟨c1, ms1, rnd1, hsp, hms⟩ := collisionInput_bodies M fuel t rnd g b hb
    obtain ⟨-, -, -, -, -, f6⟩ := collisionInput_frame M fuel t rnd g b hb
    refine ⟨?_, ms1, rnd1, hsp, ?_⟩
    · intro hset hhit
      rw [← List.count_eq_zero,
        finishTick_log_count _ _ (by decide) (fun _ _ => by simp),
        collisionLoop_rocketSet_count] at hset
      rw [← List.count_eq_zero,
        finishTick_log_count _ _ (by decide) (fun _ _ => by simp)] at hhit
      have hr := collisionLoop_rocket_of_no_hit M b.g.meteoroids b [] (by rw [hhit, f6])
      have hh : (finishTick (collisionLoop M b.g.meteoroids b [])).g.hold = b.g.hold := by
        have : ∀ ms (w : World K) kept, (collisionLoop M ms w kept).1.g.hold = w.g.hold := by
          intro ms
          induction ms with
          | nil => intro w kept; rfl
          | cons a ms ih =>
            intro w kept
            have r : (rocketRule M a w kept).1.g.hold = w.g.hold := by
              unfold rocketRule; split_ifs <;> rfl
            simp only [collisionLoop]
            split_ifs
            · simpa [earthRule] using r
            · rw [ih, r]
        unfold finishTick rocketEarthRule
        split_ifs <;> simp [this]
      rw [finishTick_rocket, hr, c1 hset, hh]
      simp [gravityRocket, boostRocket, moveRocket]
      split_ifs <;> simp
    · intro m' hm'
      rw [finishTick_meteoroids] at hm'
      split_ifs at hm' with hre
      · simp at hm'
      · rcases collisionLoop_kept_subset M _ _ _ m' hm' with h | h
        · simp at h
        · rw [hms] at h
          obtain ⟨m1, hm1, e⟩ := moveMeteoroids_mem _ _ h
          obtain ⟨m, hm, e1⟩ := List.mem_map.mp hm1
          refine ⟨m, hm, ?_⟩
          subst e e1
          simp [moveMeteoroid, gravityMeteoroid]

/-- The tick from `coastingGame`, for every math package exact on the axes. -/
theorem coastingGame_trace (M : MathLib K) (h : AxisExact M) :
    (Update M 0 noTouch (zeroRand K) (coastingGame K)).map
      (fun w => (w.log, w.g.rocket.x, w.g.rocket.y, w.g.rocket.vx, w.g.rocket.vy))
      = some ([], 102, 240, 2 + 25 / 11881, 0) := by
  have g1 := calcGravity_east M h 102 (by norm_num)
  have e : (100 : K) + 2 = 102 := by norm_num
  simp [Update, updateWorld, enterTick, coastingGame, playingGame, updatePlaying, beforeCollision,
    spawnStep, noTouch, rocketAt, moveRocket, boostRocket, gravityRocket, e, g1,
    rocketOut, moveMeteoroids_nil, screenWidth, screenHeight, finishTick, rocketEarthRule,
    rocketHitsEarth, tickEffects, collisionLoop]
  norm_num

/-- C3 (the code departs from the claim): the rocket of `coastingGame` is at
(100, 240) with velocity (2, 0); nothing replaces it in the tick.  After the call
it is at (102, 240) and its velocity grew by 25/11881, which is `calcGravity` at
the position (102, 240) after the move, not 1/484, which is `calcGravity` at the
position (100, 240) before the move. -/
theorem rocket_gravity_after_move :
    (coastingGame ℚ).mode = gameModePlaying ∧
      (coastingGame ℚ).rocket.x = 100 ∧ (coastingGame ℚ).rocket.y = 240 ∧
      (coastingGame ℚ).rocket.vx = 2 ∧
      (Update mathQ 0 noTouch (zeroRand ℚ) (coastingGame ℚ)).map
        (fun w => (w.log, w.g.rocket.x, w.g.rocket.y, w.g.rocket.vx, w.g.rocket.vy))
        = some ([], 102, 240, 2 + 25 / 11881, 0) ∧
      (calcGravity mathQ 100 240).1 = 1 / 484 ∧
      (calcGravity mathQ 102 240).1 = 25 / 11881 ∧
      (2 : ℚ) + 25 / 11881 ≠ 2 + (calcGravity mathQ 100 240).1 := by
  have g0 := calcGravity_east mathQ mathQ_axisExact 100 (by norm_num)
  have g1 := calcGravity_east mathQ mathQ_axisExact 102 (by norm_num)
  refine ⟨rfl, rfl, rfl, rfl, coastingGame_trace mathQ mathQ_axisExact, ?_, ?_, ?_⟩
  · rw [g0]; norm_num
  · rw [g1]; norm_num
  · rw [g0]; norm_num

/-- The tick from `driftGame`, for every math package exact on the axes. -/
theorem driftGame_trace (M : MathLib K) (h : AxisExact M) :
    (Update M 0 noTouch (zeroRand K) (driftGame K)).map
      (fun w => (w.log, w.g.meteoroids.length)) = some ([], 1) := by
  have g1 := calcGravity_east M h 102 (by norm_num)
  have g2 := calcGravity_east M h 200 (by norm_num)
  have e : (100 : K) + 2 = 102 := by norm_num
  simp [Update, updateWorld, enterTick, driftGame, playingGame, updatePlaying, beforeCollision,
    spawnStep, noTouch, rocketAt, meteoroidAt, moveRocket, boostRocket, gravityRocket, e, g1, g2,
    rocketOut, gravityMeteoroid, moveMeteoroids_nil, moveMeteoroids_cons, moveMeteoroid,
    meteoroidIn, screenWidth, screenHeight, finishTick, rocketEarthRule, rocketHitsEarth,
    tickEffects]
  norm_num [collisionLoop, rocketRule, hitsRocket, hitsEarth, earthRule]

/-- The tick from `driftGame`, in which the rocket is not replaced and the
meteoroid stays, as an instance of `gravity_positions`. -/
theorem gravity_positions_witness :
    (driftGame ℚ).mode = gameModePlaying ∧
    ∃ w', Update mathQ 0 noTouch (zeroRand ℚ) (driftGame ℚ) = some w' ∧
      Event.playRocketSet ∉ w'.log ∧ Event.playHit ∉ w'.log ∧ w'.g.meteoroids.length = 1 ∧
      (Event.playRocketSet ∉ w'.log → Event.playHit ∉ w'.log →
        w'.g.rocket.x = (driftGame ℚ).rocket.x + (driftGame ℚ).rocket.vx ∧
        w'.g.rocket.y = (driftGame ℚ).rocket.y + (driftGame ℚ).rocket.vy ∧
        w'.g.rocket.vx = (boostRocket mathQ w'.g.hold (moveRocket (driftGame ℚ).rocket)).vx
          + (calcGravity mathQ ((driftGame ℚ).rocket.x + (driftGame ℚ).rocket.vx)
              ((driftGame ℚ).rocket.y + (driftGame ℚ).rocket.vy)).1 ∧
        w'.g.rocket.vy = (boostRocket mathQ w'.g.hold (moveRocket (driftGame ℚ).rocket)).vy
          + (calcGravity mathQ ((driftGame ℚ).rocket.x + (driftGame ℚ).rocket.vx)
              ((driftGame ℚ).rocket.y + (driftGame ℚ).rocket.vy)).2) ∧
      ∃ ms1 rnd1, spawnStep mathQ 0 (((driftGame ℚ).ticksFromModeStart + 1) % 2 ^ 64)
          (zeroRand ℚ) (driftGame ℚ).meteoroids = some (ms1, rnd1) ∧
        ∀ m' ∈ w'.g.meteoroids, ∃ m ∈ ms1,
          m'.vx = m.vx + (calcGravity mathQ m.x m.y).1 ∧
          m'.vy = m.vy + (calcGravity mathQ m.x m.y).2 ∧
          m'.x = m.x + m'.vx ∧ m'.y = m.y + m'.vy := by
  obtain ⟨w', hw'⟩ : ∃ w', Update mathQ 0 noTouch (zeroRand ℚ) (driftGame ℚ) = some w' :=
    ⟨_, rfl⟩
  have ht := driftGame_trace mathQ mathQ_axisExact
  rw [hw'] at ht
  simp only [Option.map_some', Option.some.injEq, Prod.mk.injEq] at ht
  obtain ⟨hl, hn⟩ := ht
  obtain ⟨c1, c2⟩ := gravity_positions mathQ 0 noTouch (zeroRand ℚ) (driftGame ℚ) w' rfl hw'
  exact ⟨rfl, w', hw', by simp [hl], by simp [hl], hn, c1, c2⟩

/-- The meteoroids with which the collision loop starts in `oneHitGame`. -/
theorem oneHitGame_input (M : MathLib K) (h : AxisExact M) :
    (collisionInput M 0 noTouch (zeroRand K) (oneHitGame K)).map (fun b => b.g.meteoroids)
      = some [moveMeteoroid (gravityMeteoroid M (meteoroidAt 110 240 0 0))] := by
  have g2 := calcGravity_east M h 110 (by norm_num)
  simp [collisionInput, oneHitGame, playingGame, enterTick, beforeCollision, spawnStep,
    moveMeteoroids_cons, moveMeteoroids_nil,
    meteoroidIn, moveMeteoroid, gravityMeteoroid, meteoroidAt, g2, screenWidth,
    screenHeight]
  norm_num

/-- Witness of C2 (as amended): the tick from `oneHitGame`. -/
theorem at_most_one_hit_witness :
    (oneHitGame ℚ).mode = gameModePlaying ∧
    ∃ b, collisionInput mathQ 0 noTouch (zeroRand ℚ) (oneHitGame ℚ) = some b ∧
      (∀ m ∈ b.g.meteoroids, ¬ hitsRocket m (newRocket mathQ)) ∧
      ∃ w', Update mathQ 0 noTouch (zeroRand ℚ) (oneHitGame ℚ) = some w' ∧
        (∃ es, w'.g.effects = b.g.effects ++ es ∧ es.length ≤ 1) ∧
        w'.log.count Event.playHit ≤ 1 ∧
        (w'.g.mode = gameModePlaying → b.g.meteoroids.length ≤ w'.g.meteoroids.length + 1) ∧
        (oneHitGame ℚ).score ≤ w'.g.score ∧ w'.g.score ≤ (oneHitGame ℚ).score + 3 := by
  obtain ⟨b, hb⟩ : ∃ b, collisionInput mathQ 0 noTouch (zeroRand ℚ) (oneHitGame ℚ) = some b :=
    ⟨_, rfl⟩
  have hi := oneHitGame_input mathQ mathQ_axisExact
  rw [hb] at hi
  simp only [Option.map_some', Option.some.injEq] at hi
  have g2 := calcGravity_east mathQ mathQ_axisExact 110 (by norm_num)
  have hf : ∀ m ∈ b.g.meteoroids, ¬ hitsRocket m (newRocket mathQ) := by
    rw [hi]
    intro m hm
    rw [List.mem_singleton] at hm
    subst hm
    simp [hitsRocket, newRocket, moveMeteoroid, gravityMeteoroid, meteoroidAt, g2, earthY,
      earthR, screenCenterY, screenHeight]
    norm_num
  exact ⟨rfl, b, hb, hf,
    at_most_one_hit mathQ 0 noTouch (zeroRand ℚ) (oneHitGame ℚ) b rfl hb hf⟩

/-! ## C5: the spawn step -/

/-- The rejection loop returns when one of its first `fuel` samples is accepted. -/
theorem sampleOffset_total (M : MathLib K) (fuel : Nat) (rnd : Rand K)
    (h : ∃ i, i < fuel ∧ offsetAccepted M (headingOffset M (rnd.floats i))) :
    ∃ dt rnd', sampleOffset M fuel rnd = some (dt, rnd') := by
  induction fuel generalizing rnd with
  | zero => obtain ⟨i, hi, -⟩ := h; exact absurd hi (Nat.not_lt_zero _)
  | succ n ih =>
    simp only [sampleOffset, Rand.Float64]
    split_ifs with hacc
    · exact ⟨_, _, rfl⟩
    · obtain ⟨i, hi, ha⟩ := h
      cases i with
      | zero => exact absurd ha hacc
      | succ j =>
        exact ih { rnd with floats := fun n => rnd.floats (n + 1) }
          ⟨j, Nat.lt_of_succ_lt_succ hi, ha⟩

/-- C5: in a Playing tick whose rejection loop meets an accepted sample within
`fuel` draws (needed only on a spawn tick), and with `math.Cos`, `math.Sin`
obeying the Pythagorean identity: the spawn step returns; when the tick counter
after the increment is a multiple of 60 it appends exactly one meteoroid at the
end of the collection, of radius 10, age 0, all-zero history and squared speed
1/4; otherwise it leaves the collection as it is; the tick goes on with that
collection and `Update` returns. -/
theorem spawn_step (M : MathLib K) (hT : TrigExact M) (fuel : Nat) (t : TouchContext)
    (rnd : Rand K) (g : Game K)
    (hmode : g.mode = gameModePlaying)
    (hacc : (g.ticksFromModeStart + 1) % 2 ^ 64 % 60 = 0 →
      ∃ i, i < fuel ∧ offsetAccepted M (headingOffset M (rnd.floats i))) :
    ∃ ms' rnd', spawnStep M fuel ((g.ticksFromModeStart + 1) % 2 ^ 64) rnd g.meteoroids
        = some (ms', rnd') ∧
      ((g.ticksFromModeStart + 1) % 2 ^ 64 % 60 = 0 →
        ∃ m, ms' = g.meteoroids ++ [m] ∧ m.r = 10 ∧ m.ticks = 0 ∧
          (∀ i, m.orbit i = (0, 0)) ∧ m.vx ^ 2 + m.vy ^ 2 = 1 / 4) ∧
      ((g.ticksFromModeStart + 1) % 2 ^ 64 % 60 ≠ 0 → ms' = g.meteoroids) ∧
      (∃ b, collisionInput M fuel t rnd g = some b ∧
        b.g.meteoroids = moveMeteoroids (ms'.map (gravityMeteoroid M))) ∧
      ∃ w', Update M fuel t rnd g = some w' := by
  have key : ∃ ms' rnd', spawnStep M fuel ((g.ticksFromModeStart + 1) % 2 ^ 64) rnd g.meteoroids
        = some (ms', rnd') ∧
      ((g.ticksFromModeStart + 1) % 2 ^ 64 % 60 = 0 →
        ∃ m, ms' = g.meteoroids ++ [m] ∧ m.r = 10 ∧ m.ticks = 0 ∧
          (∀ i, m.orbit i = (0, 0)) ∧ m.vx ^ 2 + m.vy ^ 2 = 1 / 4) ∧
      ((g.ticksFromModeStart + 1) % 2 ^ 64 % 60 ≠ 0 → ms' = g.meteoroids) := by
    by_cases h60 : (g.ticksFromModeStart + 1) % 2 ^ 64 % 60 = 0
    · obtain ⟨dt, rnd2, hso⟩ := sampleOffset_total M fuel rnd.Int.2 (hacc h60)
      have hsp : spawnStep M fuel ((g.ticksFromModeStart + 1) % 2 ^ 64) rnd g.meteoroids
          = some (g.meteoroids ++ [{
              x := (spawnPosition (((rnd.Int.1 : Nat) : Int) %
                ((screenWidth + 50 * 2) * 2 + (screenHeight + 50 * 2) * 2)) : K × K).1
              y := (spawnPosition (((rnd.Int.1 : Nat) : Int) %
                ((screenWidth + 50 * 2) * 2 + (screenHeight + 50 * 2) * 2)) : K × K).2
              vx := 1 / 2 * M.Cos (M.Atan2
                ((earthY : K) - (spawnPosition (((rnd.Int.1 : Nat) : Int) %
                  ((screenWidth + 50 * 2) * 2 + (screenHeight + 50 * 2) * 2)) : K × K).2)
                ((earthX : K) - (spawnPosition (((rnd.Int.1 : Nat) : Int) %
                  ((screenWidth + 50 * 2) * 2 + (screenHeight + 50 * 2) * 2)) : K × K).1) + dt)
              vy := 1 / 2 * M.Sin (M.Atan2
                ((earthY : K) - (spawnPosition (((rnd.Int.1 : Nat) : Int) %
                  ((screenWidth + 50 * 2) * 2 + (screenHeight + 50 * 2) * 2)) : K × K).2)
                ((earthX : K) - (spawnPosition (((rnd.Int.1 : Nat) : Int) %
                  ((screenWidth + 50 * 2) * 2 + (screenHeight + 50 * 2) * 2)) : K × K).1) + dt)
              r := 10, ticks := 0, orbit := fun _ => (0, 0) }], rnd2) := by
        simp only [spawnStep, if_pos h60, hso]
      refine ⟨_, rnd2, hsp, fun _ => ⟨_, rfl, rfl, rfl, fun _ => rfl, ?_⟩,
        fun hne => absurd h60 hne⟩
      dsimp only
      have := hT (M.Atan2
          ((earthY : K) - (spawnPosition (((rnd.Int.1 : Nat) : Int) %
              ((screenWidth + 50 * 2) * 2 + (screenHeight + 50 * 2) * 2)) : K × K).2)
          ((earthX : K) - (spawnPosition (((rnd.Int.1 : Nat) : Int) %
              ((screenWidth + 50 * 2) * 2 + (screenHeight + 50 * 2) * 2)) : K × K).1) + dt)
      linear_combination (1 / 4 : K) * this
    · exact ⟨g.meteoroids, rnd, by simp only [spawnStep, if_neg h60],
        fun h => absurd h h60, fun _ => rfl⟩
  obtain ⟨ms', rnd', h1, h2, h3⟩ := key
  have hb : ∃ b, collisionInput M fuel t rnd g = some b ∧
      b.g.meteoroids = moveMeteoroids (ms'.map (gravityMeteoroid M)) := by
    simp only [collisionInput, beforeCollision, enterTick, h1]
    exact ⟨_, rfl, rfl⟩
  refine ⟨ms', rnd', h1, h2, h3, hb, ?_⟩
  obtain ⟨b, hb, -⟩ := hb
  exact ⟨_, by rw [Update_playing M fuel t rnd g hmode, hb, Option.map_some']⟩

/-- Witness of C5: tick 60 of `spawnGame` with the real cosine and sine and the
all-zero random source, whose first sample is accepted. -/
theorem spawn_step_witness :
    ∃ M : MathLib ℝ, M.Pi = Real.pi ∧ M.Cos = Real.cos ∧ M.Sin = Real.sin ∧
      TrigExact M ∧ (spawnGame ℝ).mode = gameModePlaying ∧
      ((spawnGame ℝ).ticksFromModeStart + 1) % 2 ^ 64 % 60 = 0 ∧
      (((spawnGame ℝ).ticksFromModeStart + 1) % 2 ^ 64 % 60 = 0 →
        ∃ i, i < 1 ∧ offsetAccepted M (headingOffset M ((zeroRand ℝ).floats i))) ∧
      ∃ ms' rnd', spawnStep M 1 (((spawnGame ℝ).ticksFromModeStart + 1) % 2 ^ 64)
          (zeroRand ℝ) (spawnGame ℝ).meteoroids = some (ms', rnd') ∧
        (((spawnGame ℝ).ticksFromModeStart + 1) % 2 ^ 64 % 60 = 0 →
          ∃ m, ms' = (spawnGame ℝ).meteoroids ++ [m] ∧ m.r = 10 ∧ m.ticks = 0 ∧
            (∀ i, m.orbit i = (0, 0)) ∧ m.vx ^ 2 + m.vy ^ 2 = 1 / 4) ∧
        (((spawnGame ℝ).ticksFromModeStart + 1) % 2 ^ 64 % 60 ≠ 0 →
          ms' = (spawnGame ℝ).meteoroids) ∧
        (∃ b, collisionInput M 1 noTouch (zeroRand ℝ) (spawnGame ℝ) = some b ∧
          b.g.meteoroids = moveMeteoroids (ms'.map (gravityMeteoroid M))) ∧
        ∃ w', Update M 1 noTouch (zeroRand ℝ) (spawnGame ℝ) = some w' := by
  have hT : TrigExact (⟨Real.pi, Real.sqrt, fun y x => Complex.arg ⟨x, y⟩, Real.cos,
      Real.sin⟩ : MathLib ℝ) := fun x => Real.cos_sq_add_sin_sq x
  have hacc : ((spawnGame ℝ).ticksFromModeStart + 1) % 2 ^ 64 % 60 = 0 →
      ∃ i, i < 1 ∧ offsetAccepted (⟨Real.pi, Real.sqrt, fun y x => Complex.arg ⟨x, y⟩,
        Real.cos, Real.sin⟩ : MathLib ℝ)
        (headingOffset (⟨Real.pi, Real.sqrt, fun y x => Complex.arg ⟨x, y⟩,
        Real.cos, Real.sin⟩ : MathLib ℝ) ((zeroRand ℝ).floats i)) :=
    fun _ => ⟨0, Nat.one_pos, offsetAccepted_zero _ Real.pi_pos⟩
  exact ⟨_, rfl, rfl, rfl, hT, rfl, by decide, hacc,
    spawn_step _ hT 1 noTouch (zeroRand ℝ) (spawnGame ℝ) rfl hacc⟩

/-! ## C8: the tick counter across mode changes -/

/-- The collision loop never writes the tick counter. -/
theorem collisionLoop_ticks (M : MathLib K) (ms : List (meteoroid K)) (w : World K)
    (kept : List (meteoroid K)) :
    (collisionLoop M ms w kept).1.g.ticksFromModeStart = w.g.ticksFromModeStart := by
  induction ms generalizing w kept with
  | nil => rfl
  | cons a ms ih =>
    obtain ⟨-, r2, -⟩ := rocketRule_frame M a w kept
    simp only [collisionLoop]
    split_ifs
    · simpa [earthRule] using r2
    · rw [ih, r2]

/-- A Playing tick leaves the tick counter at its incremented value, whatever
the mode after the tick. -/
theorem playing_tick_counter (M : MathLib K) (fuel : Nat) (t : TouchContext) (rnd : Rand K)
    (g : Game K) (w' : World K) (hmode : g.mode = gameModePlaying)
    (hU : Update M fuel t rnd g = some w') :
    w'.g.ticksFromModeStart = (g.ticksFromModeStart + 1) % 2 ^ 64 := by
  rw [Update_playing M fuel t rnd g hmode] at hU
  cases hb : collisionInput M fuel t rnd g with
  | none => rw [hb] at hU; exact absurd hU (by simp)
  | some b =>
    rw [hb, Option.map_some', Option.some.injEq] at hU
    subst hU
    obtain ⟨-, f2, -⟩ := collisionInput_frame M fuel t rnd g b hb
    rw [finishTick_ticks, collisionLoop_ticks, f2]

/-- The transitions out of Title and out of GameOver reset the tick counter. -/
theorem other_transitions_reset (M : MathLib K) (fuel : Nat) (t : TouchContext) (rnd : Rand K)
    (g : Game K) (w' : World K) (hmode : g.mode ≠ gameModePlaying)
    (hU : Update M fuel t rnd g = some w') (hch : w'.g.mode ≠ g.mode) :
    w'.g.ticksFromModeStart = 0 := by
  unfold Update updateWorld at hU
  cases hm : g.mode with
  | gameModePlaying => exact absurd hm hmode
  | gameModeTitle =>
    have e : (enterTick ({ g := g, rnd := rnd, log := [] } : World K)).g.mode = gameModeTitle := hm
    simp only [e] at hU
    split_ifs at hU
    · simp only [Option.some.injEq] at hU
      subst hU; rfl
    · simp only [Option.some.injEq] at hU
      subst hU
      exact absurd rfl hch
  | gameModeGameOver =>
    have e : (enterTick ({ g := g, rnd := rnd, log := [] } : World K)).g.mode
        = gameModeGameOver := hm
    simp only [e] at hU
    split_ifs at hU
    · simp only [Option.some.injEq] at hU
      subst hU; rfl
    · simp only [Option.some.injEq] at hU
      subst hU
      exact absurd rfl hch

/-- The tick from `crashGame`, for every math package exact on the axes. -/
theorem crashGame_trace (M : MathLib K) (h : AxisExact M) :
    (Update M 0 noTouch (zeroRand K) (crashGame K)).map
      (fun w => (w.g.mode, w.g.ticksFromModeStart)) = some (gameModeGameOver, 1) := by
  have g1 := calcGravity_east M h 300 (by norm_num)
  simp [Update, updateWorld, enterTick, crashGame, playingGame, updatePlaying, beforeCollision,
    spawnStep, noTouch, rocketAt, moveRocket, boostRocket, gravityRocket, g1,
    rocketOut, moveMeteoroids_nil, screenWidth, screenHeight, finishTick, rocketEarthRule,
    rocketHitsEarth, tickEffects, collisionLoop]
  norm_num

/-- C8 (the code departs from the claim): `crashGame` is a Playing state with tick
counter 0 whose rocket is within collision distance of the attractor.  The call
of `Update` changes the mode to GameOver and leaves the counter at 1, not 0. -/
theorem game_over_keeps_ticks :
    (crashGame ℚ).mode = gameModePlaying ∧
      (Update mathQ 0 noTouch (zeroRand ℚ) (crashGame ℚ)).map
        (fun w => (w.g.mode, w.g.ticksFromModeStart)) = some (gameModeGameOver, 1) :=
  ⟨rfl, crashGame_trace mathQ mathQ_axisExact⟩

end CosmicVelocity
